import Mathlib

/-!
bk-cmdb: service template / service instance reconciliation.

A shallow embedding of the two handlers of
`src/scene_server/proc_server/service/serviceinstance.go`:

* `FindDifferencesBetweenServiceAndProcessInstance` (the difference classifier),
* `ForceSyncServiceInstanceAccordingToServiceTemplate` (the force-sync reconciler),

and of `SearchMainlineInstanceTopo` of
`src/source_controller/coreservice/core/mainline/instance.go` (the mainline topology
search).

Conventions of the embedding

* A collaborator call that returns a non-nil `err` is `none`; a call that succeeds is
  `some result`.  Every collaborator receives the log of the calls issued before it, so
  that the same call may be answered differently each time it is made.
* Go maps are association lists with distinct keys (`mapSet` replaces or appends).  The
  order in which `range` walks a map is not fixed by the language; it is a parameter
  (`MapOrder`) wherever the source ranges over a map.
* `for _, x := range xs { m[k] = &x }` stores the address of the loop variable.  Up to
  Go 1.21 (this repository has no `go.mod`, so that is the language version it is built
  with) there is one variable for the whole loop, and after the loop every stored pointer
  sees the last element of `xs`.  From Go 1.22 on each iteration has a variable of its
  own.  `LoopVar` selects between the two readings.
-/

namespace BkCmdb

/-! ## Data model (package `metadata`, field names as used by the handlers) -/

/-- Error codes handed to `RespWithError` / `RespErrorCodeOnly` (package `common`);
`AutoError` stands for `RespAutoError` after a failed `DecodeInto`. -/
inductive ErrCode where
  | AutoError
  | CCErrCommHTTPInputInvalid
  | CCErrProcGetProcessTemplatesFailed
  | CCErrProcGetProcessInstanceRelationFailed
  | CCErrProcGetServiceInstancesFailed
  | CCErrProcGetProcessInstanceFailed
  | CCErrProcDeleteProcessFailed
  | CCErrProcUpdateProcessFailed
  | CCErrProcCreateProcessFailed
  deriving DecidableEq, Repr

/-- Modelled from the spec: the declaration of `metadata.ProcessProperty` is not part of
the sources; the spec describes it as a map from attribute id to declared value. -/
abbrev ProcessProperty := List (String × Int)

/-- A process template: `ID` and the nullable `Property`. -/
structure ProcessTemplate where
  ID : Int
  Property : Option ProcessProperty
  deriving DecidableEq, Repr

/-- Modelled from the spec: the declaration of `metadata.Process` is not part of the
sources; the handlers read `ProcessID`, the remaining fields are the attribute values. -/
structure Process where
  ProcessID : Int
  Attrs : List (String × Int)
  deriving DecidableEq, Repr

/-- The join row binding a process instance to a service instance, a process template
and a host. -/
structure ProcessInstanceRelation where
  ProcessID : Int
  ServiceInstanceID : Int
  ProcessTemplateID : Int
  HostID : Int
  deriving DecidableEq, Repr

/-- A service instance, with the three fields the classifier copies. -/
structure ServiceInstance where
  ID : Int
  Name : String
  HostID : Int
  deriving DecidableEq, Repr

/-- A model attribute of the process object; only `PropertyID` is read by the handler. -/
structure Attribute where
  PropertyID : String
  deriving DecidableEq, Repr

/-- Modelled from the spec: one changed attribute (attribute id, value declared by the
template, value held by the instance); the declaration is not part of the sources. -/
structure ProcessChangedAttribute where
  PropertyID : String
  TemplateValue : Int
  InstanceValue : Int
  deriving DecidableEq, Repr

/-- One entry of a difference list. -/
structure ProcessDifferenceDetail where
  ProcessTemplateID : Int
  ProcessInstance : Process
  ChangedAttributes : List ProcessChangedAttribute
  deriving DecidableEq, Repr

/-- The four difference lists. -/
structure DifferenceDetail where
  Unchanged : List ProcessDifferenceDetail
  Changed : List ProcessDifferenceDetail
  Added : List ProcessDifferenceDetail
  Removed : List ProcessDifferenceDetail
  deriving DecidableEq, Repr

/-- The constructor `metadata.NewDifferenceDetail()`: four empty lists. -/
def NewDifferenceDetail : DifferenceDetail :=
  { Unchanged := [], Changed := [], Added := [], Removed := [] }

/-- The difference record of one service instance. -/
structure ServiceProcessInstanceDifference where
  ServiceInstanceID : Int
  ServiceInstanceName : String
  HostID : Int
  Differences : DifferenceDetail
  deriving DecidableEq, Repr

/-! ## Go maps and loop variables -/

/-- The assignment `m[k] = v`: replace the value of an existing key, else add the key. -/
def mapSet {ν : Type} : List (Int × ν) → Int → ν → List (Int × ν)
  | [], k, v => [(k, v)]
  | (k', v') :: rest, k, v =>
    if k' = k then (k, v) :: rest else (k', v') :: mapSet rest k v

/-- The lookup `m[k]` together with its `exist` flag. -/
def mapGet {ν : Type} (m : List (Int × ν)) (k : Int) : Option ν :=
  List.lookup k m

/-- The keys of a map. -/
def mapKeys {ν : Type} (m : List (Int × ν)) : List Int :=
  m.map Prod.fst

/-- Which variable a `range` loop hands to its body: one for the whole loop (Go up to
1.21) or a fresh one per iteration (Go 1.22 and later). -/
inductive LoopVar where
  | shared
  | perIteration
  deriving DecidableEq, Repr

/-- What a pointer `&x` taken inside `for _, x := range xs` shows once the loop has
ended: the element of its own iteration, or the last element of `xs` when the loop
variable is shared. -/
def loopVarAfter {α : Type} (sem : LoopVar) (xs : List α) (x : α) : α :=
  match sem with
  | LoopVar.perIteration => x
  | LoopVar.shared => (xs.getLast?).getD x

/-- An order in which `range` may walk the keys of a map. -/
abbrev MapOrder := List Int → List Int

/-- The functions of `ps.Logic` that compute locally; their bodies are not part of the
sources, so they are parameters of the embedding. -/
structure Logic where
  GetDifferenceInProcessTemplateAndInstance :
    Option ProcessProperty → Process → List (String × Attribute) → List ProcessChangedAttribute
  NewProcessInstanceFromProcessTemplate : Option ProcessProperty → Process
  CheckProcessTemplateAndInstanceIsDifferent : Option ProcessProperty → Process → Process × Bool

/-! ## FindDifferencesBetweenServiceAndProcessInstance -/

/-- The decoded request body of the difference handler; `Metadata` is the business id
that `BizIDFromMetadata` extracts, `none` when it cannot be parsed. -/
structure FindServiceTemplateAndInstanceDifferenceOption where
  Metadata : Option Int
  ServiceTemplateID : Int
  ModuleID : Int
  deriving DecidableEq, Repr

/-- The collaborator calls the difference handler issues. -/
inductive DiffCall where
  | ReadModelAttr
  | ListProcessTemplates (bizID serviceTemplateID : Int)
  | ListProcessInstanceRelation (bizID processTemplateID : Int)
  | ListServiceInstance (bizID serviceTemplateID moduleID : Int)
  | GetProcessInstanceWithID (processID : Int)
  deriving DecidableEq, Repr

/-- The remote reads of the difference handler; the first argument is the log of the
calls issued so far. -/
structure DiffAPI where
  ReadModelAttr : List DiffCall → Option (List Attribute)
  ListProcessTemplates : List DiffCall → Int → Int → Option (List ProcessTemplate)
  ListProcessInstanceRelation : List DiffCall → Int → Int → Option (List ProcessInstanceRelation)
  ListServiceInstance : List DiffCall → Int → Int → Int → Option (List ServiceInstance)
  GetProcessInstanceWithID : List DiffCall → Int → Option Process

/-- The maps filled by step 3 and the call log. -/
structure Step3State where
  pTemplateMap : List (Int × ProcessTemplate)
  serviceRelationMap : List (Int × List ProcessInstanceRelation)
  calls : List DiffCall

/-- The inner loop of step 3 (line 231): append every relation to the group of its
service instance. -/
def groupRelations (m : List (Int × List ProcessInstanceRelation))
    (rs : List ProcessInstanceRelation) : List (Int × List ProcessInstanceRelation) :=
  rs.foldl (fun acc r =>
    mapSet acc r.ServiceInstanceID (((mapGet acc r.ServiceInstanceID).getD []) ++ [r])) m

/-- Step 3 (lines 213-235): for each listed template, store `&pTemplate` under its id and
load the relations carrying that template id.  `all` is the whole template list (it
decides what the stored pointers show after the loop), the third argument is what is
left to walk.  A failed read ends the handler with its error code; the call log up to
and including the failed call comes with it. -/
def step3 (sem : LoopVar) (api : DiffAPI) (bizID : Int) (all : List ProcessTemplate) :
    List ProcessTemplate → Step3State → Except (ErrCode × List DiffCall) Step3State
  | [], st => Except.ok st
  | pTemplate :: rest, st =>
    let pTemplateMap := mapSet st.pTemplateMap pTemplate.ID (loopVarAfter sem all pTemplate)
    match api.ListProcessInstanceRelation st.calls bizID pTemplate.ID with
    | none =>
      Except.error (ErrCode.CCErrProcGetProcessInstanceRelationFailed,
        st.calls ++ [DiffCall.ListProcessInstanceRelation bizID pTemplate.ID])
    | some relations =>
      step3 sem api bizID all rest
        { pTemplateMap := pTemplateMap
          serviceRelationMap := groupRelations st.serviceRelationMap relations
          calls := st.calls ++ [DiffCall.ListProcessInstanceRelation bizID pTemplate.ID] }

/-- The state of step 5 while the relations of one service instance are walked.
`diff` is the record declared at line 274; `early` counts the times the pointer to it
was appended to `differences` inside the relation loop (line 303); `shadowed` collects
the records declared at line 307, which live for one iteration and are never appended
to `differences`. -/
structure RelState where
  processTemplatesUsing : List (Int × Bool)
  diff : ServiceProcessInstanceDifference
  early : Nat
  shadowed : List ServiceProcessInstanceDifference
  calls : List DiffCall

/-- A fresh difference record for a service instance (lines 264, 274 and 307). -/
def newDifference (serviceInstance : ServiceInstance) : ServiceProcessInstanceDifference :=
  { ServiceInstanceID := serviceInstance.ID
    ServiceInstanceName := serviceInstance.Name
    HostID := serviceInstance.HostID
    Differences := NewDifferenceDetail }

/-- The relation loop of step 5 (lines 280-334).  A failed fetch ends the handler with its
error code; the call log up to and including the failed fetch comes with it. -/
def relationLoop (lg : Logic) (api : DiffAPI) (attributeMap : List (String × Attribute))
    (pTemplateMap : List (Int × ProcessTemplate)) (serviceInstance : ServiceInstance) :
    List ProcessInstanceRelation → RelState → Except (ErrCode × List DiffCall) RelState
  | [], st => Except.ok st
  | r :: rest, st =>
    let processTemplatesUsing := mapSet st.processTemplatesUsing r.ProcessTemplateID true
    let calls := st.calls ++ [DiffCall.GetProcessInstanceWithID r.ProcessID]
    match api.GetProcessInstanceWithID st.calls r.ProcessID with
    | none => Except.error (ErrCode.CCErrProcGetProcessInstanceFailed, calls)
    | some processInstance =>
      match mapGet pTemplateMap r.ProcessTemplateID with
      | none =>
        -- the outer record gets the Removed entry and is appended to `differences`
        let removed : ProcessDifferenceDetail :=
          { ProcessTemplateID := r.ProcessTemplateID
            ProcessInstance := processInstance
            ChangedAttributes := [] }
        let diff := { st.diff with
          Differences := { st.diff.Differences with
            Removed := st.diff.Differences.Removed ++ [removed] } }
        relationLoop lg api attributeMap pTemplateMap serviceInstance rest
          { st with processTemplatesUsing := processTemplatesUsing, diff := diff,
                    early := st.early + 1, calls := calls }
      | some pTemplate =>
        -- line 307: `diff :=` declares a new record that shadows the outer one
        let inner := newDifference serviceInstance
        match pTemplate.Property with
        | none =>
          relationLoop lg api attributeMap pTemplateMap serviceInstance rest
            { st with processTemplatesUsing := processTemplatesUsing,
                      shadowed := st.shadowed ++ [inner], calls := calls }
        | some property =>
          let diffAttributes :=
            lg.GetDifferenceInProcessTemplateAndInstance (some property) processInstance attributeMap
          let entry : ProcessDifferenceDetail :=
            { ProcessTemplateID := pTemplate.ID
              ProcessInstance := processInstance
              ChangedAttributes := diffAttributes }
          let inner :=
            if diffAttributes.length = 0 then
              { inner with Differences := { inner.Differences with
                  Unchanged := inner.Differences.Unchanged ++ [{ entry with ChangedAttributes := [] }] } }
            else
              { inner with Differences := { inner.Differences with
                  Changed := inner.Differences.Changed ++ [entry] } }
          relationLoop lg api attributeMap pTemplateMap serviceInstance rest
            { st with processTemplatesUsing := processTemplatesUsing,
                      shadowed := st.shadowed ++ [inner], calls := calls }

/-- The loop over the listed templates that fills `Added` (lines 337-352). -/
def addedLoop (lg : Logic) (processTemplatesUsing : List (Int × Bool))
    (templates : List ProcessTemplate) (diff : ServiceProcessInstanceDifference) :
    ServiceProcessInstanceDifference :=
  templates.foldl (fun d t =>
    if (mapGet processTemplatesUsing t.ID).isSome then d
    else
      match t.Property with
      | none => d
      | some property =>
        { d with Differences := { d.Differences with
            Added := d.Differences.Added ++
              [{ ProcessTemplateID := t.ID
                 ProcessInstance := lg.NewProcessInstanceFromProcessTemplate (some property)
                 ChangedAttributes := [] }] } }) diff

/-- The state of step 5 between two service instances.  `differences` is the response
being built: it holds pointers, so a record appended inside the relation loop is the
same record that the rest of the iteration keeps writing to, and the response shows its
final content at every position where the pointer was appended. -/
structure Step5State where
  differences : List ServiceProcessInstanceDifference
  processTemplatesUsing : List (Int × Bool)
  shadowed : List ServiceProcessInstanceDifference
  calls : List DiffCall

/-- Step 5 (lines 256-355): one iteration per listed service instance.
`processTemplatesUsing` is declared before the loop (line 255) and is carried from one
service instance to the next. -/
def step5 (lg : Logic) (api : DiffAPI) (attributeMap : List (String × Attribute))
    (templates : List ProcessTemplate) (pTemplateMap : List (Int × ProcessTemplate))
    (serviceRelationMap : List (Int × List ProcessInstanceRelation)) :
    List ServiceInstance → Step5State → Except (ErrCode × List DiffCall) Step5State
  | [], st => Except.ok st
  | serviceInstance :: rest, st =>
    let relations := (mapGet serviceRelationMap serviceInstance.ID).getD []
    if relations.length = 0 then
      step5 lg api attributeMap templates pTemplateMap serviceRelationMap rest
        { st with differences := st.differences ++ [newDifference serviceInstance] }
    else
      match relationLoop lg api attributeMap pTemplateMap serviceInstance relations
          { processTemplatesUsing := st.processTemplatesUsing
            diff := newDifference serviceInstance
            early := 0
            shadowed := st.shadowed
            calls := st.calls } with
      | Except.error e => Except.error e
      | Except.ok rs =>
        let diff := addedLoop lg rs.processTemplatesUsing templates rs.diff
        step5 lg api attributeMap templates pTemplateMap serviceRelationMap rest
          { differences := st.differences ++ List.replicate rs.early diff ++ [diff]
            processTemplatesUsing := rs.processTemplatesUsing
            shadowed := rs.shadowed
            calls := rs.calls }

/-- Step 1's map `attributeMap[attr.PropertyID] = attr` (lines 191-194); only handed on
to `GetDifferenceInProcessTemplateAndInstance`. -/
def buildAttributeMap (attrs : List Attribute) : List (String × Attribute) :=
  attrs.foldl (fun m attr =>
    if m.any (fun e => e.1 == attr.PropertyID) then
      m.map (fun e => if e.1 == attr.PropertyID then (e.1, attr) else e)
    else m ++ [(attr.PropertyID, attr)]) []

/-- What a run of the difference handler leaves behind: the response (the list passed to
`RespEntity`, or the error code), the log of the collaborator calls it issued (on an
error response up to and including the call that failed), and for a run that reaches
`RespEntity` the records that were built but never added to the response. -/
structure DiffRun where
  response : Except ErrCode (List ServiceProcessInstanceDifference)
  shadowed : List ServiceProcessInstanceDifference
  calls : List DiffCall

/-- The handler `FindDifferencesBetweenServiceAndProcessInstance` (lines 168-358).
`req` is the request body, `none` when `DecodeInto` fails. -/
def FindDifferencesBetweenServiceAndProcessInstance (sem : LoopVar) (lg : Logic) (api : DiffAPI)
    (req : Option FindServiceTemplateAndInstanceDifferenceOption) : DiffRun :=
  match req with
  | none => { response := Except.error ErrCode.AutoError, shadowed := [], calls := [] }
  | some input =>
    match input.Metadata with
    | none => { response := Except.error ErrCode.CCErrCommHTTPInputInvalid, shadowed := [], calls := [] }
    | some bizID =>
      -- step 1
      match api.ReadModelAttr [] with
      | none =>
        { response := Except.error ErrCode.CCErrProcGetProcessTemplatesFailed, shadowed := []
          calls := [DiffCall.ReadModelAttr] }
      | some attrs =>
        let attributeMap := buildAttributeMap attrs
        let c1 := [DiffCall.ReadModelAttr]
        -- step 2
        match api.ListProcessTemplates c1 bizID input.ServiceTemplateID with
        | none =>
          { response := Except.error ErrCode.CCErrProcGetProcessTemplatesFailed, shadowed := []
            calls := c1 ++ [DiffCall.ListProcessTemplates bizID input.ServiceTemplateID] }
        | some processTemplates =>
          let c2 := c1 ++ [DiffCall.ListProcessTemplates bizID input.ServiceTemplateID]
          -- step 3
          match step3 sem api bizID processTemplates processTemplates
              { pTemplateMap := [], serviceRelationMap := [], calls := c2 } with
          | Except.error e => { response := Except.error e.1, shadowed := [], calls := e.2 }
          | Except.ok s3 =>
            -- step 4
            match api.ListServiceInstance s3.calls bizID input.ServiceTemplateID input.ModuleID with
            | none =>
              { response := Except.error ErrCode.CCErrProcGetServiceInstancesFailed, shadowed := []
                calls := s3.calls ++
                  [DiffCall.ListServiceInstance bizID input.ServiceTemplateID input.ModuleID] }
            | some serviceInstances =>
              let c4 := s3.calls ++
                [DiffCall.ListServiceInstance bizID input.ServiceTemplateID input.ModuleID]
              -- step 5
              match step5 lg api attributeMap processTemplates s3.pTemplateMap
                  s3.serviceRelationMap serviceInstances
                  { differences := [], processTemplatesUsing := [], shadowed := [], calls := c4 } with
              | Except.error e => { response := Except.error e.1, shadowed := [], calls := e.2 }
              | Except.ok s5 =>
                { response := Except.ok s5.differences, shadowed := s5.shadowed, calls := s5.calls }

/-- A difference record without any `Changed` and without any `Unchanged` entry. -/
def Uncompared (d : ServiceProcessInstanceDifference) : Prop :=
  d.Differences.Changed = [] ∧ d.Differences.Unchanged = []

/-! ## ForceSyncServiceInstanceAccordingToServiceTemplate -/

/-- The decoded request body of the force-sync handler; `Metadata` is the business id
that `BizIDFromMetadata` extracts, `none` when it cannot be parsed. -/
structure ForceSyncServiceInstanceWithTemplateInput where
  Metadata : Option Int
  ServiceTemplateID : Int
  ServiceInstances : List Int
  deriving DecidableEq, Repr

/-- The collaborator calls the force-sync handler issues.  In `CreateProcessInstance`
the first two arguments are the loop variables `svcID` and `id` of the iteration of
step 6 that issues the call; they are kept in the log only and are not sent. -/
inductive SyncCall where
  | ListProcessTemplates (bizID serviceTemplateID : Int)
  | ListProcessInstanceRelation (bizID : Int) (serviceInstanceIDs : List Int)
  | ListProcessInstanceWithIDs (procIDs : List Int)
  | DeleteProcessInstance (processID : Int)
  | DeleteProcessInstanceRelation (processID : Int)
  | UpdateProcessInstance (processID : Int) (proc : Process)
  | CreateProcessInstance (svcID id : Int) (proc : Process)
  | CreateProcessInstanceRelation (relation : ProcessInstanceRelation)
  deriving DecidableEq, Repr

/-- The remote calls of the force-sync handler; the first argument is the log of the
calls issued so far.  `CreateProcessInstance` answers with the id of the new process. -/
structure SyncAPI where
  ListProcessTemplates : List SyncCall → Int → Int → Option (List ProcessTemplate)
  ListProcessInstanceRelation : List SyncCall → Int → List Int → Option (List ProcessInstanceRelation)
  ListProcessInstanceWithIDs : List SyncCall → List Int → Option (List Process)
  DeleteProcessInstance : List SyncCall → Int → Option Unit
  DeleteProcessInstanceRelation : List SyncCall → Int → Option Unit
  UpdateProcessInstance : List SyncCall → Int → Process → Option Unit
  CreateProcessInstance : List SyncCall → Process → Option Int
  CreateProcessInstanceRelation : List SyncCall → ProcessInstanceRelation → Option Unit

/-- A response written through `ctx`. -/
inductive SyncResponse where
  | success
  | error (code : ErrCode)
  deriving DecidableEq, Repr

/-- Where the handler stands: still executing, returned, or stopped by a run-time panic
(a nil pointer dereference). -/
inductive Flow where
  | running
  | returned
  | panicked
  deriving DecidableEq, Repr

/-- The observable state of a run: the collaborator calls issued, the responses written
and the control state. -/
structure SyncState where
  calls : List SyncCall
  responses : List SyncResponse
  flow : Flow
  deriving DecidableEq, Repr

/-- The statement pair `ctx.RespWithError(...); return`. -/
def SyncState.respondError (st : SyncState) (code : ErrCode) : SyncState :=
  { st with responses := st.responses ++ [SyncResponse.error code], flow := Flow.returned }

/-- A `for ... range` loop whose body may return from the handler or panic: the body
runs for the next element only while the handler is still executing. -/
def forEach {α : Type} (body : α → SyncState → SyncState) : List α → SyncState → SyncState
  | [], st => st
  | x :: rest, st =>
    match st.flow with
    | Flow.running => forEach body rest (body x st)
    | _ => st

/-- The orders in which one run walks its three map ranges: the service instances of
step 5, the templates of step 6, and for each template the service instances of the
inner loop of step 6. -/
structure RangeOrders where
  step5 : MapOrder
  step6Outer : MapOrder
  step6Inner : Int → MapOrder

/-- A range order is admissible when it only rearranges the keys it is given. -/
def RangeOrders.Valid (o : RangeOrders) : Prop :=
  (∀ ks, (o.step5 ks).Perm ks) ∧ (∀ ks, (o.step6Outer ks).Perm ks) ∧
    (∀ id ks, (o.step6Inner id ks).Perm ks)

/-- The order that walks every map in insertion order. -/
def insertionOrder : RangeOrders :=
  { step5 := fun ks => ks, step6Outer := fun ks => ks, step6Inner := fun _ ks => ks }

/-- Lines 396-399 and 428-431: `m[key x] = &x` for every `x` of `xs`, read after the
loop. -/
def buildPointerMap {α : Type} (sem : LoopVar) (key : α → Int) (xs : List α) : List (Int × α) :=
  xs.foldl (fun m x => mapSet m (key x) (loopVarAfter sem xs x)) []

/-- The four maps of step 4. -/
structure Step4State where
  serviceInstanceWithProcessMap : List (Int × List Process)
  serviceInstanceWithTemplateMap : List (Int × List (Int × Bool))
  serviceInstanceWithHostMap : List (Int × Int)
  processInstanceWithTemplateMap : List (Int × Int)
  deriving DecidableEq, Repr

/-- One iteration of step 4 (lines 439-459). -/
def step4Relation (processInstanceMap : List (Int × Process)) (st : Step4State)
    (r : ProcessInstanceRelation) : Step4State :=
  match mapGet processInstanceMap r.ProcessID with
  | none => st
  | some p =>
    let withProcess := mapSet st.serviceInstanceWithProcessMap r.ServiceInstanceID
      (((mapGet st.serviceInstanceWithProcessMap r.ServiceInstanceID).getD []) ++ [p])
    let withTemplate0 :=
      -- line 455: the test reads the entry of the template inside the service instance's
      -- map; when it is missing the whole map of the service instance is replaced
      if (mapGet ((mapGet st.serviceInstanceWithTemplateMap r.ServiceInstanceID).getD [])
            r.ProcessTemplateID).isSome
      then st.serviceInstanceWithTemplateMap
      else mapSet st.serviceInstanceWithTemplateMap r.ServiceInstanceID []
    let withTemplate := mapSet withTemplate0 r.ServiceInstanceID
      (mapSet ((mapGet withTemplate0 r.ServiceInstanceID).getD []) r.ProcessTemplateID true)
    { serviceInstanceWithProcessMap := withProcess
      serviceInstanceWithTemplateMap := withTemplate
      serviceInstanceWithHostMap := mapSet st.serviceInstanceWithHostMap r.ServiceInstanceID r.HostID
      processInstanceWithTemplateMap :=
        mapSet st.processInstanceWithTemplateMap r.ProcessID r.ProcessTemplateID }

/-- Step 4: the re-index over all loaded relations. -/
def step4 (processInstanceMap : List (Int × Process)) (relations : List ProcessInstanceRelation) :
    Step4State :=
  relations.foldl (step4Relation processInstanceMap)
    { serviceInstanceWithProcessMap := [], serviceInstanceWithTemplateMap := []
      serviceInstanceWithHostMap := [], processInstanceWithTemplateMap := [] }

/-- The body of the inner loop of step 5 (lines 465-499) for one process.  In the branch
of a removed template `template` is the nil pointer returned by the failed map lookup;
both error branches evaluate `template.ID` to build the arguments of `RespWithError`,
which panics before anything is written. -/
def step5Process (lg : Logic) (api : SyncAPI) (processTemplateMap : List (Int × ProcessTemplate))
    (processInstanceWithTemplateMap : List (Int × Int)) (process : Process) (st : SyncState) :
    SyncState :=
  match mapGet processTemplateMap ((mapGet processInstanceWithTemplateMap process.ProcessID).getD 0) with
  | none =>
    let st1 := { st with calls := st.calls ++ [SyncCall.DeleteProcessInstance process.ProcessID] }
    match api.DeleteProcessInstance st.calls process.ProcessID with
    | none => { st1 with flow := Flow.panicked }
    | some _ =>
      let st2 :=
        { st1 with calls := st1.calls ++ [SyncCall.DeleteProcessInstanceRelation process.ProcessID] }
      match api.DeleteProcessInstanceRelation st1.calls process.ProcessID with
      | none => { st2 with flow := Flow.panicked }
      | some _ => st2
  | some template =>
    let checked := lg.CheckProcessTemplateAndInstanceIsDifferent template.Property process
    if checked.2 then
      let st1 :=
        { st with calls := st.calls ++ [SyncCall.UpdateProcessInstance process.ProcessID checked.1] }
      match api.UpdateProcessInstance st.calls process.ProcessID checked.1 with
      | none => st1.respondError ErrCode.CCErrProcUpdateProcessFailed
      | some _ => st1
    else st

/-- Step 5 (lines 463-501): for every service instance of `serviceInstanceWithProcessMap`,
in the order the range yields them, every process of its list. -/
def step5Sync (lg : Logic) (api : SyncAPI) (orders : RangeOrders)
    (processTemplateMap : List (Int × ProcessTemplate)) (s4 : Step4State) (st : SyncState) :
    SyncState :=
  forEach (fun svcInstanceID st =>
      forEach (step5Process lg api processTemplateMap s4.processInstanceWithTemplateMap)
        ((mapGet s4.serviceInstanceWithProcessMap svcInstanceID).getD []) st)
    (orders.step5 (mapKeys s4.serviceInstanceWithProcessMap)) st

/-- The conversion `int64(x)` of an unsigned 64-bit value (line 525): values from 2^63 on
wrap around to negative numbers. -/
def int64 (x : Int) : Int :=
  (x + 9223372036854775808) % 18446744073709551616 - 9223372036854775808

/-- The body of the inner loop of step 6 (lines 508-538) for template `id` and service
instance `svcID`. -/
def step6Pair (lg : Logic) (api : SyncAPI) (s4 : Step4State) (id : Int) (pt : ProcessTemplate)
    (svcID : Int) (st : SyncState) : SyncState :=
  if (mapGet ((mapGet s4.serviceInstanceWithTemplateMap svcID).getD []) id).isSome then st
  else
    let newProcess := lg.NewProcessInstanceFromProcessTemplate pt.Property
    let st1 := { st with calls := st.calls ++ [SyncCall.CreateProcessInstance svcID id newProcess] }
    match api.CreateProcessInstance st.calls newProcess with
    | none => st1.respondError ErrCode.CCErrProcCreateProcessFailed
    | some process =>
      let relation : ProcessInstanceRelation :=
        { ProcessID := int64 process
          ServiceInstanceID := svcID
          ProcessTemplateID := id
          HostID := (mapGet s4.serviceInstanceWithHostMap svcID).getD 0 }
      let st2 := { st1 with calls := st1.calls ++ [SyncCall.CreateProcessInstanceRelation relation] }
      match api.CreateProcessInstanceRelation st1.calls relation with
      | none => st2.respondError ErrCode.CCErrProcCreateProcessFailed
      | some _ => st2

/-- Step 6 (lines 506-541): for every template of `processTemplateMap` and every service
instance of `serviceInstanceWithTemplateMap`, in the orders the two ranges yield them. -/
def step6Sync (lg : Logic) (api : SyncAPI) (orders : RangeOrders)
    (processTemplateMap : List (Int × ProcessTemplate)) (s4 : Step4State) (st : SyncState) :
    SyncState :=
  forEach (fun id st =>
      match mapGet processTemplateMap id with
      | none => st
      | some pt =>
        forEach (step6Pair lg api s4 id pt)
          (orders.step6Inner id (mapKeys s4.serviceInstanceWithTemplateMap)) st)
    (orders.step6Outer (mapKeys processTemplateMap)) st

/-- The (service instance, template) pairs that the two nested ranges of step 6 visit, in
the order they visit them. -/
def step6Pairs (orders : RangeOrders) (ptm : List (Int × ProcessTemplate)) (s4 : Step4State) :
    List (Int × Int) :=
  (orders.step6Outer (mapKeys ptm)).flatMap (fun id =>
    (orders.step6Inner id (mapKeys s4.serviceInstanceWithTemplateMap)).flatMap
      (fun svcID => [(svcID, id)]))

/-- The last statement (line 544): the success response, reached only when nothing
before it returned or panicked. -/
def respondSuccess (st : SyncState) : SyncState :=
  match st.flow with
  | Flow.running =>
    { st with responses := st.responses ++ [SyncResponse.success], flow := Flow.returned }
  | _ => st

/-- The handler `ForceSyncServiceInstanceAccordingToServiceTemplate` (lines 368-545).
`req` is the request body, `none` when `DecodeInto` fails. -/
def ForceSyncServiceInstanceAccordingToServiceTemplate (sem : LoopVar) (lg : Logic)
    (api : SyncAPI) (orders : RangeOrders)
    (req : Option ForceSyncServiceInstanceWithTemplateInput) : SyncState :=
  let st0 : SyncState := { calls := [], responses := [], flow := Flow.running }
  match req with
  | none => st0.respondError ErrCode.AutoError
  | some input =>
    match input.Metadata with
    | none => st0.respondError ErrCode.CCErrCommHTTPInputInvalid
    | some bizID =>
      -- step 1
      let st1 := { st0 with calls := [SyncCall.ListProcessTemplates bizID input.ServiceTemplateID] }
      match api.ListProcessTemplates st0.calls bizID input.ServiceTemplateID with
      | none => st1.respondError ErrCode.CCErrProcGetProcessTemplatesFailed
      | some processTemplate =>
        let processTemplateMap := buildPointerMap sem ProcessTemplate.ID processTemplate
        -- step 2
        let st2 := { st1 with
          calls := st1.calls ++ [SyncCall.ListProcessInstanceRelation bizID input.ServiceInstances] }
        match api.ListProcessInstanceRelation st1.calls bizID input.ServiceInstances with
        | none => st2.respondError ErrCode.CCErrProcGetProcessInstanceRelationFailed
        | some relations =>
          let procIDs := relations.map ProcessInstanceRelation.ProcessID
          -- step 3
          let st3 := { st2 with calls := st2.calls ++ [SyncCall.ListProcessInstanceWithIDs procIDs] }
          match api.ListProcessInstanceWithIDs st2.calls procIDs with
          | none => st3.respondError ErrCode.CCErrProcGetProcessInstanceFailed
          | some processInstances =>
            let processInstanceMap := buildPointerMap sem Process.ProcessID processInstances
            -- step 4
            let s4 := step4 processInstanceMap relations
            -- steps 5 and 6, then the success response
            respondSuccess
              (step6Sync lg api orders processTemplateMap s4
                (step5Sync lg api orders processTemplateMap s4 st3))

/-! ## Collaborators as queries over a store -/

/-- Modelled from the spec: the remote store behind the collaborators of section 6, for
one business and one service template: its model attributes, the process templates the
service template currently has, the service instances, the relation rows and the
process instances. -/
structure Store where
  attributes : List Attribute
  templates : List ProcessTemplate
  serviceInstances : List ServiceInstance
  relations : List ProcessInstanceRelation
  processes : List Process
  deriving DecidableEq, Repr

/-- Modelled from the spec: the reads of the difference handler answered from a store.
`ListProcessTemplates` returns the current templates, `ListProcessInstanceRelation`
the stored relations carrying the requested template id, `GetProcessInstanceWithID`
the stored process with that id (an error when there is none). -/
def Store.diffAPI (s : Store) : DiffAPI :=
  { ReadModelAttr := fun _ => some s.attributes
    ListProcessTemplates := fun _ _ _ => some s.templates
    ListProcessInstanceRelation := fun _ _ processTemplateID =>
      some (s.relations.filter (fun r => r.ProcessTemplateID = processTemplateID))
    ListServiceInstance := fun _ _ _ _ => some s.serviceInstances
    GetProcessInstanceWithID := fun _ processID =>
      s.processes.find? (fun p => p.ProcessID = processID) }

/-- Modelled from the spec: the local functions of `ps.Logic` as section 4.1 describes
them.  The diff lists every attribute of the template that the catalog knows and whose
value in the instance differs; a new instance takes the template's values; the check
reports a change exactly when the instance's values are not the template's and returns
the instance with the template's values. -/
def stdLogic : Logic :=
  { GetDifferenceInProcessTemplateAndInstance := fun property process attributeMap =>
      (property.getD []).filterMap (fun av =>
        if attributeMap.any (fun e => e.1 == av.1) then
          if List.lookup av.1 process.Attrs = some av.2 then none
          else some { PropertyID := av.1, TemplateValue := av.2
                      InstanceValue := (List.lookup av.1 process.Attrs).getD 0 }
        else none)
    NewProcessInstanceFromProcessTemplate := fun property =>
      { ProcessID := 0, Attrs := property.getD [] }
    CheckProcessTemplateAndInstanceIsDifferent := fun property process =>
      ({ process with Attrs := property.getD [] }, decide (process.Attrs ≠ property.getD [])) }

/-- Modelled from the spec: the id the store gives to the next process it creates, one
above every id in use. -/
def Store.nextID (s : Store) : Int :=
  s.processes.foldl (fun m p => max m (p.ProcessID + 1)) 1

/-- Modelled from the spec: the effect of one successful call on the store.  Deleting a
process removes it, deleting a relation removes the rows of that process id, an update
replaces the attribute values, the two creations add a process (under the next id) and
a relation row; reads change nothing. -/
def Store.apply (s : Store) : SyncCall → Store
  | SyncCall.DeleteProcessInstance processID =>
    { s with processes := s.processes.filter (fun p => p.ProcessID ≠ processID) }
  | SyncCall.DeleteProcessInstanceRelation processID =>
    { s with relations := s.relations.filter (fun r => r.ProcessID ≠ processID) }
  | SyncCall.UpdateProcessInstance processID proc =>
    { s with processes := s.processes.map (fun p =>
        if p.ProcessID = processID then { proc with ProcessID := processID } else p) }
  | SyncCall.CreateProcessInstance _ _ proc =>
    { s with processes := s.processes ++ [{ proc with ProcessID := s.nextID }] }
  | SyncCall.CreateProcessInstanceRelation relation =>
    { s with relations := s.relations ++ [relation] }
  | _ => s

/-- The store after a log of successful calls. -/
def Store.after (s : Store) (calls : List SyncCall) : Store :=
  calls.foldl Store.apply s

/-- Modelled from the spec: the calls of the force-sync handler answered from a store,
every call succeeding.  Each call sees the store as the calls before it have left it. -/
def Store.syncAPI (s : Store) : SyncAPI :=
  { ListProcessTemplates := fun hist _ _ => some (s.after hist).templates
    ListProcessInstanceRelation := fun hist _ serviceInstanceIDs =>
      some ((s.after hist).relations.filter (fun r => serviceInstanceIDs.contains r.ServiceInstanceID))
    ListProcessInstanceWithIDs := fun hist procIDs =>
      some ((s.after hist).processes.filter (fun p => procIDs.contains p.ProcessID))
    DeleteProcessInstance := fun _ _ => some ()
    DeleteProcessInstanceRelation := fun _ _ => some ()
    UpdateProcessInstance := fun _ _ _ => some ()
    CreateProcessInstance := fun hist _ => some (s.after hist).nextID
    CreateProcessInstanceRelation := fun _ _ => some () }

/-- The write calls of a log. -/
def writeCalls (calls : List SyncCall) : List SyncCall :=
  calls.filter (fun c =>
    match c with
    | SyncCall.ListProcessTemplates _ _ => false
    | SyncCall.ListProcessInstanceRelation _ _ => false
    | SyncCall.ListProcessInstanceWithIDs _ => false
    | _ => true)

/-- The (service instance, process template) pair of the iteration that issued a
`CreateProcessInstance` call. -/
def createKey : SyncCall → Option (Int × Int)
  | SyncCall.CreateProcessInstance svcID id _ => some (svcID, id)
  | _ => none

/-- The (ServiceInstanceID, ProcessTemplateID) pair of the relation passed to a
`CreateProcessInstanceRelation` call. -/
def relationKey : SyncCall → Option (Int × Int)
  | SyncCall.CreateProcessInstanceRelation relation =>
    some (relation.ServiceInstanceID, relation.ProcessTemplateID)
  | _ => none

/-- The (service instance, process template) pairs for which a log holds a
`CreateProcessInstance` call, in call order. -/
def createdProcessPairs (calls : List SyncCall) : List (Int × Int) :=
  calls.filterMap createKey

/-- The (ServiceInstanceID, ProcessTemplateID) pairs of the relations passed to
`CreateProcessInstanceRelation` in a log, in call order. -/
def createdRelationPairs (calls : List SyncCall) : List (Int × Int) :=
  calls.filterMap relationKey

/-- The stored relation rows of a service instance that are bound to a given template. -/
def Store.relationsOf (s : Store) (serviceInstanceID processTemplateID : Int) :
    List ProcessInstanceRelation :=
  s.relations.filter (fun r =>
    r.ServiceInstanceID = serviceInstanceID ∧ r.ProcessTemplateID = processTemplateID)

/-! ## Scenarios -/

/-- The request used in the scenarios: business 1, service template 1, module 1. -/
def diffRequest : Option FindServiceTemplateAndInstanceDifferenceOption :=
  some { Metadata := some 1, ServiceTemplateID := 1, ModuleID := 1 }

/-- Process template P1 with attribute a = 1. -/
def tplP1 : ProcessTemplate := { ID := 1, Property := some [("a", 1)] }

/-- Process template P2 with attribute a = 2. -/
def tplP2 : ProcessTemplate := { ID := 2, Property := some [("a", 2)] }

/-- Service instance S (id 100) on host 7. -/
def svcS : ServiceInstance := { ID := 100, Name := "S", HostID := 7 }

/-- Service instance S1 (id 101) on host 7. -/
def svcS1 : ServiceInstance := { ID := 101, Name := "S1", HostID := 7 }

/-- Service instance S2 (id 102) on host 8. -/
def svcS2 : ServiceInstance := { ID := 102, Name := "S2", HostID := 8 }

/-- Scenario of section 8: templates P1 (a=1) and P2 (a=2); S has one process (id 10)
bound to P1 with a = 5. -/
def changedStore : Store :=
  { attributes := [{ PropertyID := "a" }]
    templates := [tplP1, tplP2]
    serviceInstances := [svcS]
    relations := [{ ProcessID := 10, ServiceInstanceID := 100, ProcessTemplateID := 1, HostID := 7 }]
    processes := [{ ProcessID := 10, Attrs := [("a", 5)] }] }

/-- Templates P1 and P2; S1 has process 11 bound to P1, S2 has process 12 bound to P2,
both in sync; `order` is the order in which `ListServiceInstance` lists them. -/
def twoServicesStore (order : List ServiceInstance) : Store :=
  { attributes := [{ PropertyID := "a" }]
    templates := [tplP1, tplP2]
    serviceInstances := order
    relations :=
      [{ ProcessID := 11, ServiceInstanceID := 101, ProcessTemplateID := 1, HostID := 7 },
       { ProcessID := 12, ServiceInstanceID := 102, ProcessTemplateID := 2, HostID := 8 }]
    processes := [{ ProcessID := 11, Attrs := [("a", 1)] }, { ProcessID := 12, Attrs := [("a", 2)] }] }

/-- The service template has dropped P1 and keeps P2; S still has process 10 bound to
P1 and process 20 bound to P2. -/
def droppedStore : Store :=
  { attributes := [{ PropertyID := "a" }]
    templates := [tplP2]
    serviceInstances := [svcS]
    relations :=
      [{ ProcessID := 10, ServiceInstanceID := 100, ProcessTemplateID := 1, HostID := 7 },
       { ProcessID := 20, ServiceInstanceID := 100, ProcessTemplateID := 2, HostID := 7 }]
    processes := [{ ProcessID := 10, Attrs := [("a", 1)] }, { ProcessID := 20, Attrs := [("a", 2)] }] }

/-- The service template has dropped its only template P1; S still has process 10
bound to P1. -/
def droppedOnlyStore : Store :=
  { attributes := [{ PropertyID := "a" }]
    templates := []
    serviceInstances := [svcS]
    relations := [{ ProcessID := 10, ServiceInstanceID := 100, ProcessTemplateID := 1, HostID := 7 }]
    processes := [{ ProcessID := 10, Attrs := [("a", 1)] }] }

/-- Collaborator responses in which every read succeeds and the relation list returned
for the listed template P2 holds a relation of S whose `ProcessTemplateID` is 1, which
is not listed. -/
def strayRelationAPI : DiffAPI :=
  { ReadModelAttr := fun _ => some [{ PropertyID := "a" }]
    ListProcessTemplates := fun _ _ _ => some [tplP2]
    ListProcessInstanceRelation := fun _ _ _ =>
      some [{ ProcessID := 10, ServiceInstanceID := 100, ProcessTemplateID := 1, HostID := 7 }]
    ListServiceInstance := fun _ _ _ _ => some [svcS]
    GetProcessInstanceWithID := fun _ processID => some { ProcessID := processID, Attrs := [("a", 1)] } }

/-- The force-sync request used in the scenarios: business 1, service template 1,
target service instance S. -/
def syncRequest : Option ForceSyncServiceInstanceWithTemplateInput :=
  some { Metadata := some 1, ServiceTemplateID := 1, ServiceInstances := [100] }

/-- Templates P1 and P2; S has process 11 (a=1) bound to P1 and process 12 (a=2) bound to
P2: S is already in sync with its service template. -/
def inSyncStore : Store :=
  { attributes := [{ PropertyID := "a" }]
    templates := [tplP1, tplP2]
    serviceInstances := [svcS]
    relations :=
      [{ ProcessID := 11, ServiceInstanceID := 100, ProcessTemplateID := 1, HostID := 7 },
       { ProcessID := 12, ServiceInstanceID := 100, ProcessTemplateID := 2, HostID := 7 }]
    processes := [{ ProcessID := 11, Attrs := [("a", 1)] }, { ProcessID := 12, Attrs := [("a", 2)] }] }

/-- Templates P1 and P2; the target service instance S has no relation and no process. -/
def emptyServiceStore : Store :=
  { attributes := [{ PropertyID := "a" }]
    templates := [tplP1, tplP2]
    serviceInstances := [svcS]
    relations := []
    processes := [] }

/-- The responses of `droppedOnlyStore` except that `DeleteProcessInstance` fails. -/
def deleteFailsAPI : SyncAPI :=
  { droppedOnlyStore.syncAPI with DeleteProcessInstance := fun _ _ => none }

/-- The responses of `droppedOnlyStore` except that `DeleteProcessInstanceRelation`
fails. -/
def deleteRelationFailsAPI : SyncAPI :=
  { droppedOnlyStore.syncAPI with DeleteProcessInstanceRelation := fun _ _ => none }

/-- The service instance id and the template ids of the `Added` list of every record of
a response. -/
def addedSummary (run : DiffRun) : Except ErrCode (List (Int × List Int)) :=
  run.response.map (List.map (fun d =>
    (d.ServiceInstanceID, d.Differences.Added.map ProcessDifferenceDetail.ProcessTemplateID)))

/-- The service instance ids of the records of a response, in order. -/
def recordOwners (run : DiffRun) : Except ErrCode (List Int) :=
  run.response.map (List.map ServiceProcessInstanceDifference.ServiceInstanceID)

/-! ## Predicates used by the statements -/

/-- The log entry of the fetch issued for a relation (line 286). -/
def fetchCall (r : ProcessInstanceRelation) : DiffCall :=
  DiffCall.GetProcessInstanceWithID r.ProcessID

/-- An entry whose template id is the id of a listed template with a non-null Property. -/
def FromLiveTemplate (templates : List ProcessTemplate) (e : ProcessDifferenceDetail) : Prop :=
  ∃ t ∈ templates, t.ID = e.ProcessTemplateID ∧ t.Property ≠ none

/-- A record all of whose Added, Changed and Unchanged entries come from listed templates
with a non-null Property. -/
def Sourced (templates : List ProcessTemplate) (d : ServiceProcessInstanceDifference) : Prop :=
  ∀ e ∈ d.Differences.Added ++ d.Differences.Changed ++ d.Differences.Unchanged,
    FromLiveTemplate templates e

/-- The process id a delete or update call is issued for. -/
def writeTarget : SyncCall → Option Int
  | SyncCall.DeleteProcessInstance processID => some processID
  | SyncCall.DeleteProcessInstanceRelation processID => some processID
  | SyncCall.UpdateProcessInstance processID _ => some processID
  | _ => none

/-- Every write call of the force-sync handler succeeds, whenever and with whatever
arguments it is issued. -/
def SyncAPI.WritesSucceed (api : SyncAPI) : Prop :=
  (∀ hist processID, api.DeleteProcessInstance hist processID ≠ none)
  ∧ (∀ hist processID, api.DeleteProcessInstanceRelation hist processID ≠ none)
  ∧ (∀ hist processID proc, api.UpdateProcessInstance hist processID proc ≠ none)
  ∧ (∀ hist proc, api.CreateProcessInstance hist proc ≠ none)
  ∧ (∀ hist relation, api.CreateProcessInstanceRelation hist relation ≠ none)

/-! ## SearchMainlineInstanceTopo -/

/-- A line written through `blog`: `Errorf`, or `V(level).Infof`. -/
inductive LogLine where
  | Errorf (text : String)
  | Infof (level : Nat) (text : String)
  deriving DecidableEq, Repr

/-- What `SearchMainlineInstanceTopo` calls: the methods of `topoManager` and of the
`InstanceMainline` object `im`, and `json.Marshal` / `%+v` on the three values it dumps.
None of their bodies is part of the sources, so they are parameters.  `Mainline` is the
state of `im`; a method that mutates `im` returns the new state.  An error is the text
`%+v` prints for it. -/
structure MainlineOps (Model Mainline InstanceMap Root : Type) where
  SearchMainlineModelTopo : Bool → Except String Model
  marshalModel : Model → Except String String
  NewInstanceMainline : Int → Except String Mainline
  SetModelTree : Mainline → Model → Mainline
  LoadModelParentMap : Mainline → Mainline
  LoadSetInstances : Mainline → Except String Mainline
  LoadModuleInstances : Mainline → Except String Mainline
  LoadMainlineInstances : Mainline → Except String Mainline
  ConstructBizTopoInstance : Bool → Mainline → Except String Mainline
  OrganizeSetInstance : Bool → Mainline → Except String Mainline
  OrganizeModuleInstance : Bool → Mainline → Except String Mainline
  OrganizeMainlineInstance : Bool → Mainline → Except String Mainline
  GetInstanceMap : Mainline → InstanceMap
  marshalInstanceMap : InstanceMap → Except String String
  formatInstanceMap : InstanceMap → String
  CheckAndFillingMissingModels : Bool → Mainline → Except String Mainline
  ConstructInstanceTopoTree : Bool → Mainline → Except String Mainline
  GetRoot : Mainline → Root
  marshalRoot : Root → Except String String
  formatRoot : Root → String

/-- The statement pair `blog.Errorf(logText); return nil, fmt.Errorf(errText)`. -/
def abortStage {Mainline : Type} (logs : List LogLine) (logText errText : String) :
    List LogLine × Except String Mainline :=
  (logs ++ [LogLine.Errorf logText], Except.error errText)

/-- Lines 26-105 of `SearchMainlineInstanceTopo`: every stage up to and including
`ConstructInstanceTopoTree`.  The result is the lines logged and either the text of the
error returned or the state of `im` after the last stage.  `%d` prints the business id
in decimal, which is `toString` on `Int`. -/
def mainlineStages {Model Mainline InstanceMap Root : Type}
    (ops : MainlineOps Model Mainline InstanceMap Root) (bkBizID : Int) (withDetail : Bool) :
    List LogLine × Except String Mainline :=
  match ops.SearchMainlineModelTopo false with
  | Except.error err =>
    abortStage [] ("get mainline model topo info failed, " ++ err)
      ("get mainline model topo info failed, " ++ err)
  | Except.ok bizTopoNode =>
  match ops.marshalModel bizTopoNode with
  | Except.error err =>
    abortStage []
      ("get other mainline instances by business:" ++ toString bkBizID ++ " failed, " ++ err)
      ("dump model mainline data failed, err: " ++ err)
  | Except.ok mainline =>
  let logs1 := [LogLine.Infof 9 ("model mainline: " ++ mainline)]
  match ops.NewInstanceMainline bkBizID with
  | Except.error err =>
    abortStage logs1
      ("SearchMainlineInstanceTopo failed, NewInstanceMainline failed, bizID: " ++
        toString bkBizID ++ ", err: " ++ err)
      ("new mainline instance by business:" ++ toString bkBizID ++ " failed, " ++ err)
  | Except.ok im0 =>
  let im1 := ops.LoadModelParentMap (ops.SetModelTree im0 bizTopoNode)
  match ops.LoadSetInstances im1 with
  | Except.error err =>
    abortStage logs1
      ("get set instances by business:" ++ toString bkBizID ++ " failed, " ++ err)
      ("get set instances by business:" ++ toString bkBizID ++ " failed, " ++ err)
  | Except.ok im2 =>
  match ops.LoadModuleInstances im2 with
  | Except.error err =>
    abortStage logs1
      ("get module instances by business:" ++ toString bkBizID ++ " failed, " ++ err)
      ("get module instances by business:" ++ toString bkBizID ++ " failed, " ++ err)
  | Except.ok im3 =>
  match ops.LoadMainlineInstances im3 with
  | Except.error err =>
    abortStage logs1
      ("get other mainline instances by business:" ++ toString bkBizID ++ " failed, " ++ err)
      ("get other mainline instances by business:" ++ toString bkBizID ++ " failed, " ++ err)
  | Except.ok im4 =>
  match ops.ConstructBizTopoInstance withDetail im4 with
  | Except.error err =>
    abortStage logs1
      ("construct business:" ++ toString bkBizID ++ " detail as topo instance failed, " ++ err)
      ("construct business:" ++ toString bkBizID ++ " detail as topo instance failed, " ++ err)
  | Except.ok im5 =>
  match ops.OrganizeSetInstance withDetail im5 with
  | Except.error err =>
    abortStage logs1
      ("organize set instance failed, businessID:" ++ toString bkBizID ++ ", " ++ err)
      ("organize set instance failed, businessID:" ++ toString bkBizID ++ ", " ++ err)
  | Except.ok im6 =>
  match ops.OrganizeModuleInstance withDetail im6 with
  | Except.error err =>
    abortStage logs1
      ("organize module instance failed, businessID:" ++ toString bkBizID ++ ", " ++ err)
      ("organize module instance failed, businessID:" ++ toString bkBizID ++ ", " ++ err)
  | Except.ok im7 =>
  match ops.OrganizeMainlineInstance withDetail im7 with
  | Except.error err =>
    abortStage logs1
      ("organize other mainline instance failed, businessID:" ++ toString bkBizID ++ ", " ++ err)
      ("organize other mainline instance failed, businessID:" ++ toString bkBizID ++ ", " ++ err)
  | Except.ok im8 =>
  let instanceMap := ops.GetInstanceMap im8
  match ops.marshalInstanceMap instanceMap with
  | Except.error err =>
    abortStage logs1
      ("json encode instanceMap:" ++ ops.formatInstanceMap instanceMap ++ " failed, " ++ err)
      ("json encode instanceMap:" ++ ops.formatInstanceMap instanceMap ++ " failed, " ++ err)
  | Except.ok instanceMapStr =>
  let logs2 := logs1 ++ [LogLine.Infof 3 ("instanceMap before check is: " ++ instanceMapStr)]
  match ops.CheckAndFillingMissingModels withDetail im8 with
  | Except.error err =>
    abortStage logs2
      ("check and filling missing models failed, business:" ++ toString bkBizID ++ " " ++ err)
      ("check and filling missing models failed, business:" ++ toString bkBizID ++ " " ++ err)
  | Except.ok im9 =>
  match ops.marshalInstanceMap (ops.GetInstanceMap im9) with
  | Except.error err =>
    abortStage logs2 ("json encode instanceMap failed, " ++ err)
      ("json encode instanceMap failed, " ++ err)
  | Except.ok instanceMapStr2 =>
  let logs3 := logs2 ++ [LogLine.Infof 3 ("instanceMap after check: " ++ instanceMapStr2)]
  match ops.ConstructInstanceTopoTree withDetail im9 with
  | Except.error err =>
    abortStage logs3
      ("get other mainline instances by business:" ++ toString bkBizID ++ " failed, " ++ err)
      ("get other mainline instances by business:" ++ toString bkBizID ++ " failed, " ++ err)
  | Except.ok im10 => (logs3, Except.ok im10)

/-- What `SearchMainlineInstanceTopo` returns, and the lines it logged. -/
structure TopoResult (Root : Type) where
  root : Option Root
  err : Option String
  logs : List LogLine

/-- The function `SearchMainlineInstanceTopo` (lines 24-115): the stages, then `GetRoot`
and the diagnostic dump of the root (lines 107-115). -/
def SearchMainlineInstanceTopo {Model Mainline InstanceMap Root : Type}
    (ops : MainlineOps Model Mainline InstanceMap Root) (bkBizID : Int) (withDetail : Bool) :
    TopoResult Root :=
  match mainlineStages ops bkBizID withDetail with
  | (logs, Except.error text) => { root := none, err := some text, logs := logs }
  | (logs, Except.ok im) =>
    let root := ops.GetRoot im
    let logs1 := logs ++ [LogLine.Infof 9 ("topo instance tree root is: " ++ ops.formatRoot root)]
    match ops.marshalRoot root with
    | Except.error err =>
      { root := some root, err := none
        logs := logs1 ++ [LogLine.Errorf
          ("get other mainline instances by business:" ++ toString bkBizID ++ " failed, " ++ err)] }
    | Except.ok treeData =>
      { root := some root, err := none
        logs := logs1 ++ [LogLine.Infof 9 ("topo instance tree root data is: " ++ treeData)] }

/-- The calls of `SearchMainlineInstanceTopo` that can return an error, in source order;
`json.Marshal` of the instance map is called before and after the missing-model check. -/
inductive Stage where
  | SearchMainlineModelTopo | marshalModel | NewInstanceMainline | LoadSetInstances
  | LoadModuleInstances | LoadMainlineInstances | ConstructBizTopoInstance
  | OrganizeSetInstance | OrganizeModuleInstance | OrganizeMainlineInstance
  | marshalInstanceMapBefore | CheckAndFillingMissingModels | marshalInstanceMapAfter
  | ConstructInstanceTopoTree | marshalRoot
  deriving DecidableEq, Repr

/-- The answer of a stage in a scenario: the error `err` when it is the failing stage,
else `value`. -/
def stageOutcome {α : Type} (failing : Option Stage) (stage : Stage) (err : String) (value : α) :
    Except String α :=
  if failing = some stage then Except.error err else Except.ok value

/-- Scenario collaborators: the state of `im` counts the mutating stages passed, every
stage succeeds except `failing`, which returns the error `err`.  Seven stages have
passed when the instance map is dumped the first time. -/
def stageOps (failing : Option Stage) (err : String) : MainlineOps Unit Nat Nat Nat :=
  { SearchMainlineModelTopo := fun _ => stageOutcome failing Stage.SearchMainlineModelTopo err ()
    marshalModel := fun _ => stageOutcome failing Stage.marshalModel err "model"
    NewInstanceMainline := fun _ => stageOutcome failing Stage.NewInstanceMainline err 0
    SetModelTree := fun im _ => im
    LoadModelParentMap := fun im => im
    LoadSetInstances := fun im => stageOutcome failing Stage.LoadSetInstances err (im + 1)
    LoadModuleInstances := fun im => stageOutcome failing Stage.LoadModuleInstances err (im + 1)
    LoadMainlineInstances := fun im => stageOutcome failing Stage.LoadMainlineInstances err (im + 1)
    ConstructBizTopoInstance := fun _ im =>
      stageOutcome failing Stage.ConstructBizTopoInstance err (im + 1)
    OrganizeSetInstance := fun _ im => stageOutcome failing Stage.OrganizeSetInstance err (im + 1)
    OrganizeModuleInstance := fun _ im =>
      stageOutcome failing Stage.OrganizeModuleInstance err (im + 1)
    OrganizeMainlineInstance := fun _ im =>
      stageOutcome failing Stage.OrganizeMainlineInstance err (im + 1)
    GetInstanceMap := fun im => im
    marshalInstanceMap := fun m =>
      if m = 7 then stageOutcome failing Stage.marshalInstanceMapBefore err "map"
      else stageOutcome failing Stage.marshalInstanceMapAfter err "map"
    formatInstanceMap := fun _ => "map"
    CheckAndFillingMissingModels := fun _ im =>
      stageOutcome failing Stage.CheckAndFillingMissingModels err (im + 1)
    ConstructInstanceTopoTree := fun _ im =>
      stageOutcome failing Stage.ConstructInstanceTopoTree err (im + 1)
    GetRoot := fun im => im
    marshalRoot := fun _ => stageOutcome failing Stage.marshalRoot err "tree"
    formatRoot := fun _ => "root" }

/-! ## More scenarios -/

/-- The decoded body of `diffRequest`. -/
def diffInput : FindServiceTemplateAndInstanceDifferenceOption :=
  { Metadata := some 1, ServiceTemplateID := 1, ModuleID := 1 }

/-- Templates P1 and P2 (both with Property); S1 has process 11 bound to P1, S2 has no
relation at all. -/
def idleServiceStore : Store :=
  { attributes := [{ PropertyID := "a" }]
    templates := [tplP1, tplP2]
    serviceInstances := [svcS1, svcS2]
    relations := [{ ProcessID := 11, ServiceInstanceID := 101, ProcessTemplateID := 1, HostID := 7 }]
    processes := [{ ProcessID := 11, Attrs := [("a", 1)] }] }

/-- What step 3 leaves behind over `idleServiceStore` when the loop variable is shared:
both pointers of `pTemplateMap` show P2, and only S1 has a relation group. -/
def idleStep3 : Step3State :=
  { pTemplateMap := [(1, tplP2), (2, tplP2)]
    serviceRelationMap :=
      [(101, [{ ProcessID := 11, ServiceInstanceID := 101, ProcessTemplateID := 1, HostID := 7 }])]
    calls := [DiffCall.ReadModelAttr, DiffCall.ListProcessTemplates 1 1,
              DiffCall.ListProcessInstanceRelation 1 1, DiffCall.ListProcessInstanceRelation 1 2] }

/-- The response over `idleServiceStore`: S1 with P2 to add, S2 with four empty lists. -/
def idleDifferences : List ServiceProcessInstanceDifference :=
  [{ ServiceInstanceID := 101, ServiceInstanceName := "S1", HostID := 7,
     Differences := { Unchanged := [], Changed := [],
                      Added := [{ ProcessTemplateID := 2,
                                  ProcessInstance := { ProcessID := 0, Attrs := [("a", 2)] },
                                  ChangedAttributes := [] }],
                      Removed := [] } },
   { ServiceInstanceID := 102, ServiceInstanceName := "S2", HostID := 8,
     Differences := { Unchanged := [], Changed := [], Added := [], Removed := [] } }]

/-- Process template P3 whose Property is null. -/
def tplNull : ProcessTemplate := { ID := 3, Property := none }

/-- Templates P3 (null Property) and P2; S1 has process 12 bound to P2, S2 has process 30
bound to P3. -/
def nullTemplateStore : Store :=
  { attributes := [{ PropertyID := "a" }]
    templates := [tplNull, tplP2]
    serviceInstances := [svcS1, svcS2]
    relations :=
      [{ ProcessID := 12, ServiceInstanceID := 101, ProcessTemplateID := 2, HostID := 7 },
       { ProcessID := 30, ServiceInstanceID := 102, ProcessTemplateID := 3, HostID := 8 }]
    processes := [{ ProcessID := 12, Attrs := [("a", 2)] }, { ProcessID := 30, Attrs := [("a", 9)] }] }

/-- The response over `nullTemplateStore`: two records with four empty lists each. -/
def nullTemplateDifferences : List ServiceProcessInstanceDifference :=
  [{ ServiceInstanceID := 101, ServiceInstanceName := "S1", HostID := 7,
     Differences := { Unchanged := [], Changed := [], Added := [], Removed := [] } },
   { ServiceInstanceID := 102, ServiceInstanceName := "S2", HostID := 8,
     Differences := { Unchanged := [], Changed := [], Added := [], Removed := [] } }]

/-- A diff function that agrees with `stdLogic` on every non-null Property and reports a
made-up change when handed a null one. -/
def alarmOnNull (property : Option ProcessProperty) (process : Process)
    (attributeMap : List (String × Attribute)) : List ProcessChangedAttribute :=
  match property with
  | none => [{ PropertyID := "null property", TemplateValue := 0, InstanceValue := 0 }]
  | some p => stdLogic.GetDifferenceInProcessTemplateAndInstance (some p) process attributeMap

/-- The decoded body of `syncRequest`. -/
def syncInput : ForceSyncServiceInstanceWithTemplateInput :=
  { Metadata := some 1, ServiceTemplateID := 1, ServiceInstances := [100] }

/-- Template P1; S has process 10 bound to P1 and a second relation row whose process 99
is not stored. -/
def danglingStore : Store :=
  { attributes := [{ PropertyID := "a" }]
    templates := [tplP1]
    serviceInstances := [svcS]
    relations :=
      [{ ProcessID := 99, ServiceInstanceID := 100, ProcessTemplateID := 1, HostID := 7 },
       { ProcessID := 10, ServiceInstanceID := 100, ProcessTemplateID := 1, HostID := 7 }]
    processes := [{ ProcessID := 10, Attrs := [("a", 1)] }] }

/-- Process template with the id of P3 and a non-null Property (a=1). -/
def tplTwin : ProcessTemplate := { ID := 3, Property := some [("a", 1)] }

/-- The listing holds two templates with id 3, the first with a null Property and the
second with a=1, and P2; S1 has process 12 bound to P2. -/
def twinTemplateStore : Store :=
  { attributes := [{ PropertyID := "a" }]
    templates := [tplNull, tplTwin, tplP2]
    serviceInstances := [svcS1]
    relations := [{ ProcessID := 12, ServiceInstanceID := 101, ProcessTemplateID := 2, HostID := 7 }]
    processes := [{ ProcessID := 12, Attrs := [("a", 2)] }] }

/-- The response over `twinTemplateStore`: the record of S1 with one Added entry, whose
ProcessTemplateID is 3. -/
def twinDifferences : List ServiceProcessInstanceDifference :=
  [{ ServiceInstanceID := 101, ServiceInstanceName := "S1", HostID := 7,
     Differences := { Unchanged := [], Changed := [],
                      Added := [{ ProcessTemplateID := 3,
                                  ProcessInstance := { ProcessID := 0, Attrs := [("a", 1)] },
                                  ChangedAttributes := [] }],
                      Removed := [] } }]

/-- Template P1 (a=1); S has a relation row whose process 99 is not stored, followed by
the row of the stored process 10, whose value a=5 differs from the template. -/
def driftedDanglingStore : Store :=
  { attributes := [{ PropertyID := "a" }]
    templates := [tplP1]
    serviceInstances := [svcS]
    relations :=
      [{ ProcessID := 99, ServiceInstanceID := 100, ProcessTemplateID := 1, HostID := 7 },
       { ProcessID := 10, ServiceInstanceID := 100, ProcessTemplateID := 1, HostID := 7 }]
    processes := [{ ProcessID := 10, Attrs := [("a", 5)] }] }

/-! ## Maps keep their keys distinct; loops only extend the call log -/

theorem mem_mapKeys_mapSet {ν : Type} (m : List (Int × ν)) (k : Int) (v : ν) (x : Int) :
    x ∈ mapKeys (mapSet m k v) ↔ x = k ∨ x ∈ mapKeys m := by
  induction m with
  | nil => simp [mapSet, mapKeys]
  | cons e rest ih =>
    obtain ⟨k', v'⟩ := e
    unfold mapSet
    by_cases h : k' = k
    · subst h
      simp [mapKeys]
    · have ih' : x ∈ List.map Prod.fst (mapSet rest k v) ↔ x = k ∨ x ∈ List.map Prod.fst rest := ih
      simp only [h, if_false, mapKeys, List.map_cons, List.mem_cons, ih']
      tauto

theorem mapKeys_mapSet_nodup {ν : Type} (m : List (Int × ν)) (k : Int) (v : ν)
    (h : (mapKeys m).Nodup) : (mapKeys (mapSet m k v)).Nodup := by
  induction m with
  | nil => simp [mapSet, mapKeys]
  | cons e rest ih =>
    obtain ⟨k', v'⟩ := e
    have hcons : k' ∉ mapKeys rest ∧ (mapKeys rest).Nodup := by
      simpa [mapKeys] using h
    unfold mapSet
    by_cases hk : k' = k
    · subst hk
      simpa [mapKeys] using h
    · have hnot : k' ∉ mapKeys (mapSet rest k v) := by
        rw [mem_mapKeys_mapSet]
        rintro (h1 | h1)
        · exact hk h1
        · exact hcons.1 h1
      have := ih hcons.2
      simp only [hk, if_false]
      exact List.nodup_cons.mpr ⟨hnot, this⟩

theorem foldl_mapSet_nodup {α ν : Type} (key : α → Int) (val : α → ν) :
    ∀ (ys : List α) (m : List (Int × ν)), (mapKeys m).Nodup →
      (mapKeys (ys.foldl (fun m x => mapSet m (key x) (val x)) m)).Nodup := by
  intro ys
  induction ys with
  | nil => intro m hm; simpa using hm
  | cons y rest ih =>
    intro m hm
    exact ih _ (mapKeys_mapSet_nodup m _ _ hm)

theorem buildPointerMap_nodup {α : Type} (sem : LoopVar) (key : α → Int) (xs : List α) :
    (mapKeys (buildPointerMap sem key xs)).Nodup :=
  foldl_mapSet_nodup key (loopVarAfter sem xs) xs [] List.nodup_nil

theorem step4Relation_nodup (pim : List (Int × Process)) (st : Step4State)
    (r : ProcessInstanceRelation) (h : (mapKeys st.serviceInstanceWithTemplateMap).Nodup) :
    (mapKeys (step4Relation pim st r).serviceInstanceWithTemplateMap).Nodup := by
  unfold step4Relation
  cases mapGet pim r.ProcessID with
  | none => exact h
  | some p =>
    simp only
    apply mapKeys_mapSet_nodup
    split
    · exact h
    · exact mapKeys_mapSet_nodup _ _ _ h

theorem step4_nodup (pim : List (Int × Process)) (relations : List ProcessInstanceRelation) :
    (mapKeys (step4 pim relations).serviceInstanceWithTemplateMap).Nodup := by
  unfold step4
  have : ∀ (rs : List ProcessInstanceRelation) (st : Step4State),
      (mapKeys st.serviceInstanceWithTemplateMap).Nodup →
      (mapKeys (rs.foldl (step4Relation pim) st).serviceInstanceWithTemplateMap).Nodup := by
    intro rs
    induction rs with
    | nil => intro st h; simpa using h
    | cons r rest ih => intro st h; exact ih _ (step4Relation_nodup pim st r h)
  exact this relations _ List.nodup_nil

theorem flatMap_const_nil {α β : Type} (xs : List α) :
    xs.flatMap (fun _ => ([] : List β)) = [] := by
  induction xs with
  | nil => rfl
  | cons x rest ih => simp [List.flatMap_cons, ih]

/-- A loop only appends to the call log, and the keys of the calls it appends are taken,
in order, from the keys its body may produce for each element. -/
theorem forEach_calls {α : Type} (g : SyncCall → Option (Int × Int)) (F : α → List (Int × Int))
    (body : α → SyncState → SyncState)
    (hbody : ∀ x st, ∃ new, (body x st).calls = st.calls ++ new ∧ (new.filterMap g).Sublist (F x)) :
    ∀ xs st, ∃ new, (forEach body xs st).calls = st.calls ++ new ∧
      (new.filterMap g).Sublist (xs.flatMap F) := by
  intro xs
  induction xs with
  | nil => intro st; exact ⟨[], by simp [forEach], by simp⟩
  | cons x rest ih =>
    intro st
    unfold forEach
    cases hflow : st.flow with
    | running =>
      obtain ⟨n1, h1, s1⟩ := hbody x st
      obtain ⟨n2, h2, s2⟩ := ih (body x st)
      refine ⟨n1 ++ n2, ?_, ?_⟩
      · simp only [h2, h1, List.append_assoc]
      · rw [List.filterMap_append, List.flatMap_cons]
        exact List.Sublist.append s1 s2
    | returned => exact ⟨[], by simp, by simp⟩
    | panicked => exact ⟨[], by simp, by simp⟩

theorem step5Process_calls (g : SyncCall → Option (Int × Int))
    (hd : ∀ i, g (SyncCall.DeleteProcessInstance i) = none)
    (hr : ∀ i, g (SyncCall.DeleteProcessInstanceRelation i) = none)
    (hu : ∀ i p, g (SyncCall.UpdateProcessInstance i p) = none)
    (lg : Logic) (api : SyncAPI) (ptm : List (Int × ProcessTemplate)) (pitm : List (Int × Int))
    (process : Process) (st : SyncState) :
    ∃ new, (step5Process lg api ptm pitm process st).calls = st.calls ++ new ∧
      (new.filterMap g).Sublist [] := by
  unfold step5Process
  split
  · split
    · exact ⟨[SyncCall.DeleteProcessInstance process.ProcessID], rfl, by simp [hd]⟩
    · dsimp only
      split
      · exact ⟨[SyncCall.DeleteProcessInstance process.ProcessID,
          SyncCall.DeleteProcessInstanceRelation process.ProcessID], by simp, by simp [hd, hr]⟩
      · exact ⟨[SyncCall.DeleteProcessInstance process.ProcessID,
          SyncCall.DeleteProcessInstanceRelation process.ProcessID], by simp, by simp [hd, hr]⟩
  · rename_i template _
    dsimp only
    split
    · split
      · exact ⟨[SyncCall.UpdateProcessInstance process.ProcessID
          (lg.CheckProcessTemplateAndInstanceIsDifferent template.Property process).1],
          by simp [SyncState.respondError], by simp [hu]⟩
      · exact ⟨[SyncCall.UpdateProcessInstance process.ProcessID
          (lg.CheckProcessTemplateAndInstanceIsDifferent template.Property process).1],
          by simp, by simp [hu]⟩
    · exact ⟨[], by simp, by simp⟩

theorem step5Sync_calls (g : SyncCall → Option (Int × Int))
    (hd : ∀ i, g (SyncCall.DeleteProcessInstance i) = none)
    (hr : ∀ i, g (SyncCall.DeleteProcessInstanceRelation i) = none)
    (hu : ∀ i p, g (SyncCall.UpdateProcessInstance i p) = none)
    (lg : Logic) (api : SyncAPI) (orders : RangeOrders) (ptm : List (Int × ProcessTemplate))
    (s4 : Step4State) (st : SyncState) :
    ∃ new, (step5Sync lg api orders ptm s4 st).calls = st.calls ++ new ∧
      new.filterMap g = [] := by
  unfold step5Sync
  obtain ⟨new, h1, h2⟩ := forEach_calls g (fun _ : Int => [])
    (fun svcInstanceID st =>
      forEach (step5Process lg api ptm s4.processInstanceWithTemplateMap)
        ((mapGet s4.serviceInstanceWithProcessMap svcInstanceID).getD []) st)
    (fun svcInstanceID st => by
      obtain ⟨n, e1, e2⟩ := forEach_calls g (fun _ : Process => [])
        (step5Process lg api ptm s4.processInstanceWithTemplateMap)
        (step5Process_calls g hd hr hu lg api ptm s4.processInstanceWithTemplateMap)
        ((mapGet s4.serviceInstanceWithProcessMap svcInstanceID).getD []) st
      rw [flatMap_const_nil] at e2
      exact ⟨n, e1, e2⟩)
    (orders.step5 (mapKeys s4.serviceInstanceWithProcessMap)) st
  rw [flatMap_const_nil] at h2
  exact ⟨new, h1, List.eq_nil_of_sublist_nil h2⟩

theorem step6Pair_created (lg : Logic) (api : SyncAPI) (s4 : Step4State) (id : Int)
    (pt : ProcessTemplate) (svcID : Int) (st : SyncState) :
    ∃ new, (step6Pair lg api s4 id pt svcID st).calls = st.calls ++ new ∧
      (new.filterMap createKey).Sublist [(svcID, id)] := by
  unfold step6Pair
  split
  · exact ⟨[], by simp, by simp⟩
  · dsimp only
    split
    · exact ⟨[SyncCall.CreateProcessInstance svcID id
          (lg.NewProcessInstanceFromProcessTemplate pt.Property)],
        by simp [SyncState.respondError], by simp [createKey]⟩
    · rename_i process _
      split
      · exact ⟨[SyncCall.CreateProcessInstance svcID id
            (lg.NewProcessInstanceFromProcessTemplate pt.Property),
          SyncCall.CreateProcessInstanceRelation
            { ProcessID := int64 process, ServiceInstanceID := svcID, ProcessTemplateID := id,
              HostID := (mapGet s4.serviceInstanceWithHostMap svcID).getD 0 }],
          by simp [SyncState.respondError], by simp [createKey]⟩
      · exact ⟨[SyncCall.CreateProcessInstance svcID id
            (lg.NewProcessInstanceFromProcessTemplate pt.Property),
          SyncCall.CreateProcessInstanceRelation
            { ProcessID := int64 process, ServiceInstanceID := svcID, ProcessTemplateID := id,
              HostID := (mapGet s4.serviceInstanceWithHostMap svcID).getD 0 }],
          by simp, by simp [createKey]⟩

theorem step6Pair_related (lg : Logic) (api : SyncAPI) (s4 : Step4State) (id : Int)
    (pt : ProcessTemplate) (svcID : Int) (st : SyncState) :
    ∃ new, (step6Pair lg api s4 id pt svcID st).calls = st.calls ++ new ∧
      (new.filterMap relationKey).Sublist [(svcID, id)] := by
  unfold step6Pair
  split
  · exact ⟨[], by simp, by simp⟩
  · dsimp only
    split
    · exact ⟨[SyncCall.CreateProcessInstance svcID id
          (lg.NewProcessInstanceFromProcessTemplate pt.Property)],
        by simp [SyncState.respondError], by simp [relationKey]⟩
    · rename_i process _
      split
      · exact ⟨[SyncCall.CreateProcessInstance svcID id
            (lg.NewProcessInstanceFromProcessTemplate pt.Property),
          SyncCall.CreateProcessInstanceRelation
            { ProcessID := int64 process, ServiceInstanceID := svcID, ProcessTemplateID := id,
              HostID := (mapGet s4.serviceInstanceWithHostMap svcID).getD 0 }],
          by simp [SyncState.respondError], by simp [relationKey]⟩
      · exact ⟨[SyncCall.CreateProcessInstance svcID id
            (lg.NewProcessInstanceFromProcessTemplate pt.Property),
          SyncCall.CreateProcessInstanceRelation
            { ProcessID := int64 process, ServiceInstanceID := svcID, ProcessTemplateID := id,
              HostID := (mapGet s4.serviceInstanceWithHostMap svcID).getD 0 }],
          by simp, by simp [relationKey]⟩

theorem step6Sync_calls (g : SyncCall → Option (Int × Int))
    (hpair : ∀ (lg : Logic) (api : SyncAPI) (s4 : Step4State) (id : Int) (pt : ProcessTemplate)
      (svcID : Int) (st : SyncState),
      ∃ new, (step6Pair lg api s4 id pt svcID st).calls = st.calls ++ new ∧
        (new.filterMap g).Sublist [(svcID, id)])
    (lg : Logic) (api : SyncAPI) (orders : RangeOrders) (ptm : List (Int × ProcessTemplate))
    (s4 : Step4State) (st : SyncState) :
    ∃ new, (step6Sync lg api orders ptm s4 st).calls = st.calls ++ new ∧
      (new.filterMap g).Sublist (step6Pairs orders ptm s4) := by
  unfold step6Sync step6Pairs
  apply forEach_calls g
  intro id st
  cases mapGet ptm id with
  | none => exact ⟨[], by simp, by simp⟩
  | some pt =>
    exact forEach_calls g (fun svcID => [(svcID, id)]) (step6Pair lg api s4 id pt)
      (hpair lg api s4 id pt) _ st

theorem step6Pairs_nodup (orders : RangeOrders) (hv : orders.Valid)
    (ptm : List (Int × ProcessTemplate)) (s4 : Step4State)
    (h1 : (mapKeys ptm).Nodup) (h2 : (mapKeys s4.serviceInstanceWithTemplateMap).Nodup) :
    (step6Pairs orders ptm s4).Nodup := by
  unfold step6Pairs
  rw [List.nodup_flatMap]
  constructor
  · intro id _
    rw [List.nodup_flatMap]
    constructor
    · intro _ _; simp
    · have hn : (orders.step6Inner id (mapKeys s4.serviceInstanceWithTemplateMap)).Nodup :=
        (hv.2.2 id _).nodup_iff.mpr h2
      refine hn.imp ?_
      intro a b hab
      simp [Function.onFun, hab.symm]
  · have hn : (orders.step6Outer (mapKeys ptm)).Nodup := (hv.2.1 _).nodup_iff.mpr h1
    refine hn.imp ?_
    intro a b hab
    simp only [Function.onFun, List.disjoint_left, List.mem_flatMap, List.mem_singleton]
    rintro p ⟨s, _, rfl⟩ ⟨s', _, hp⟩
    exact hab (by simpa using (congrArg Prod.snd hp))

theorem respondSuccess_calls (st : SyncState) : (respondSuccess st).calls = st.calls := by
  unfold respondSuccess
  cases st.flow <;> rfl

theorem forceSync_keys_nodup (g : SyncCall → Option (Int × Int))
    (hlt : ∀ b s, g (SyncCall.ListProcessTemplates b s) = none)
    (hlr : ∀ b s, g (SyncCall.ListProcessInstanceRelation b s) = none)
    (hlp : ∀ ids, g (SyncCall.ListProcessInstanceWithIDs ids) = none)
    (hd : ∀ i, g (SyncCall.DeleteProcessInstance i) = none)
    (hr : ∀ i, g (SyncCall.DeleteProcessInstanceRelation i) = none)
    (hu : ∀ i p, g (SyncCall.UpdateProcessInstance i p) = none)
    (hpair : ∀ (lg : Logic) (api : SyncAPI) (s4 : Step4State) (id : Int) (pt : ProcessTemplate)
      (svcID : Int) (st : SyncState),
      ∃ new, (step6Pair lg api s4 id pt svcID st).calls = st.calls ++ new ∧
        (new.filterMap g).Sublist [(svcID, id)])
    (sem : LoopVar) (lg : Logic) (api : SyncAPI) (orders : RangeOrders) (hv : orders.Valid)
    (req : Option ForceSyncServiceInstanceWithTemplateInput) :
    ((ForceSyncServiceInstanceAccordingToServiceTemplate sem lg api orders req).calls.filterMap
      g).Nodup := by
  unfold ForceSyncServiceInstanceAccordingToServiceTemplate
  dsimp only
  split
  · simp [SyncState.respondError]
  · rename_i input
    split
    · simp [SyncState.respondError]
    · rename_i bizID _
      split
      · simp [SyncState.respondError, hlt]
      · rename_i processTemplate _
        split
        · simp [SyncState.respondError, hlt, hlr]
        · rename_i relations _
          split
          · simp [SyncState.respondError, hlt, hlr, hlp]
          · rename_i processInstances _
            rw [respondSuccess_calls]
            obtain ⟨n6, e6, s6⟩ := step6Sync_calls g hpair lg api orders
              (buildPointerMap sem ProcessTemplate.ID processTemplate)
              (step4 (buildPointerMap sem Process.ProcessID processInstances) relations)
              (step5Sync lg api orders (buildPointerMap sem ProcessTemplate.ID processTemplate)
                (step4 (buildPointerMap sem Process.ProcessID processInstances) relations)
                { calls := [SyncCall.ListProcessTemplates bizID input.ServiceTemplateID] ++
                    [SyncCall.ListProcessInstanceRelation bizID input.ServiceInstances] ++
                    [SyncCall.ListProcessInstanceWithIDs
                      (relations.map ProcessInstanceRelation.ProcessID)],
                  responses := [], flow := Flow.running })
            obtain ⟨n5, e5, s5⟩ := step5Sync_calls g hd hr hu lg api orders
              (buildPointerMap sem ProcessTemplate.ID processTemplate)
              (step4 (buildPointerMap sem Process.ProcessID processInstances) relations)
              { calls := [SyncCall.ListProcessTemplates bizID input.ServiceTemplateID] ++
                  [SyncCall.ListProcessInstanceRelation bizID input.ServiceInstances] ++
                  [SyncCall.ListProcessInstanceWithIDs
                    (relations.map ProcessInstanceRelation.ProcessID)],
                responses := [], flow := Flow.running }
            rw [e6, e5]
            simp only [List.filterMap_append, s5, List.append_nil]
            have hreads : List.filterMap g
                [SyncCall.ListProcessTemplates bizID input.ServiceTemplateID] = [] ∧
                List.filterMap g
                  [SyncCall.ListProcessInstanceRelation bizID input.ServiceInstances] = [] ∧
                List.filterMap g [SyncCall.ListProcessInstanceWithIDs
                    (relations.map ProcessInstanceRelation.ProcessID)] = [] := by
              simp [hlt, hlr, hlp]
            rw [hreads.1, hreads.2.1, hreads.2.2]
            simp only [List.nil_append]
            exact s6.nodup (step6Pairs_nodup orders hv _ _
              (buildPointerMap_nodup sem ProcessTemplate.ID processTemplate)
              (step4_nodup _ relations))

theorem insertionOrder_valid : insertionOrder.Valid :=
  ⟨fun _ => List.Perm.refl _, fun _ => List.Perm.refl _, fun _ _ => List.Perm.refl _⟩

/-! ## The records of a response are never compared records -/

theorem newDifference_uncompared (serviceInstance : ServiceInstance) :
    Uncompared (newDifference serviceInstance) := ⟨rfl, rfl⟩

theorem addedLoop_uncompared (lg : Logic) (using_ : List (Int × Bool))
    (templates : List ProcessTemplate) :
    ∀ d, Uncompared d → Uncompared (addedLoop lg using_ templates d) := by
  unfold addedLoop
  induction templates with
  | nil => intro d h; exact h
  | cons t rest ih =>
    intro d h
    rw [List.foldl_cons]
    apply ih
    split
    · exact h
    · split
      · exact h
      · exact h

theorem relationLoop_uncompared (lg : Logic) (api : DiffAPI)
    (attributeMap : List (String × Attribute)) (pTemplateMap : List (Int × ProcessTemplate))
    (serviceInstance : ServiceInstance) :
    ∀ (rs : List ProcessInstanceRelation) (st st' : RelState),
      relationLoop lg api attributeMap pTemplateMap serviceInstance rs st = Except.ok st' →
      Uncompared st.diff → Uncompared st'.diff := by
  intro rs
  induction rs with
  | nil =>
    intro st st' h hu
    simp only [relationLoop, Except.ok.injEq] at h
    subst h
    exact hu
  | cons r rest ih =>
    intro st st' h hu
    unfold relationLoop at h
    dsimp only at h
    split at h
    · cases h
    · split at h
      · exact ih _ _ h hu
      · split at h
        · exact ih _ _ h hu
        · exact ih _ _ h hu

theorem step5_uncompared (lg : Logic) (api : DiffAPI) (attributeMap : List (String × Attribute))
    (templates : List ProcessTemplate) (pTemplateMap : List (Int × ProcessTemplate))
    (serviceRelationMap : List (Int × List ProcessInstanceRelation)) :
    ∀ (sis : List ServiceInstance) (st st' : Step5State),
      step5 lg api attributeMap templates pTemplateMap serviceRelationMap sis st = Except.ok st' →
      (∀ d ∈ st.differences, Uncompared d) → ∀ d ∈ st'.differences, Uncompared d := by
  intro sis
  induction sis with
  | nil =>
    intro st st' h hu
    simp only [step5, Except.ok.injEq] at h
    subst h
    exact hu
  | cons si rest ih =>
    intro st st' h hu
    unfold step5 at h
    dsimp only at h
    split at h
    · refine ih _ _ h ?_
      intro d hd
      rcases List.mem_append.mp hd with h1 | h1
      · exact hu d h1
      · rw [List.mem_singleton] at h1
        subst h1
        exact newDifference_uncompared si
    · split at h
      · cases h
      · rename_i rs hrs
        refine ih _ _ h ?_
        have hfinal : Uncompared (addedLoop lg rs.processTemplatesUsing templates rs.diff) :=
          addedLoop_uncompared lg _ templates _
            (relationLoop_uncompared lg api attributeMap pTemplateMap si _ _ _ hrs
              (newDifference_uncompared si))
        intro d hd
        simp only [List.mem_append, List.mem_replicate, List.mem_singleton] at hd
        rcases hd with (h1 | ⟨_, h1⟩) | h1
        · exact hu d h1
        · subst h1; exact hfinal
        · subst h1; exact hfinal

/-- Whatever the request and the collaborators answer, no record of a success response of
the difference handler carries a `Changed` or an `Unchanged` entry: those entries are
only ever written to the shadowing record of line 307. -/
theorem returned_records_are_uncompared (sem : LoopVar) (lg : Logic) (api : DiffAPI)
    (req : Option FindServiceTemplateAndInstanceDifferenceOption)
    (differences : List ServiceProcessInstanceDifference)
    (h : (FindDifferencesBetweenServiceAndProcessInstance sem lg api req).response
      = Except.ok differences) :
    ∀ d ∈ differences, d.Differences.Changed = [] ∧ d.Differences.Unchanged = [] := by
  unfold FindDifferencesBetweenServiceAndProcessInstance at h
  dsimp only at h
  split at h
  · cases h
  · split at h
    · cases h
    · split at h
      · cases h
      · split at h
        · cases h
        · split at h
          · cases h
          · split at h
            · cases h
            · split at h
              · cases h
              · rename_i s5 hs5
                simp only [Except.ok.injEq] at h
                subst h
                exact step5_uncompared lg api _ _ _ _ _ _ _ hs5 (by simp)

/-! ## The difference classifier on the scenarios -/

/-- C1 (code bug): in the scenario of section 8 (templates P1 with a=1 and P2 with a=2,
S with one process bound to P1 with a=5) the diff of that process against P1 is the
non-empty list [a: 1 vs 5], yet the record returned for S has an empty `Changed` list
(and an empty `Unchanged` list): the entry is written to the record declared at line
307, which shadows the record that is returned. -/
theorem C1_changed_entry_is_lost (sem : LoopVar) :
    (FindDifferencesBetweenServiceAndProcessInstance sem stdLogic changedStore.diffAPI
        diffRequest).response
      = Except.ok [{ ServiceInstanceID := 100, ServiceInstanceName := "S", HostID := 7,
                     Differences :=
                       { Unchanged := [], Changed := [],
                         Added := [{ ProcessTemplateID := 2,
                                     ProcessInstance := { ProcessID := 0, Attrs := [("a", 2)] },
                                     ChangedAttributes := [] }],
                         Removed := [] } }]
    ∧ stdLogic.GetDifferenceInProcessTemplateAndInstance tplP1.Property
        { ProcessID := 10, Attrs := [("a", 5)] } (buildAttributeMap changedStore.attributes)
      = [{ PropertyID := "a", TemplateValue := 1, InstanceValue := 5 }] := by
  cases sem <;> exact ⟨rfl, rfl⟩

/-- C2 (code bug): with templates P1 and P2, S1 bound only to P1 and S2 bound only to
P2, the `Added` list of the service instance listed second is empty, and which of the
two that is depends on the listing order: `processTemplatesUsing` is never reset
between service instances. -/
theorem C2_added_depends_on_listing_order (sem : LoopVar) :
    addedSummary (FindDifferencesBetweenServiceAndProcessInstance sem stdLogic
        (twoServicesStore [svcS1, svcS2]).diffAPI diffRequest)
      = Except.ok [(101, [2]), (102, [])]
    ∧ addedSummary (FindDifferencesBetweenServiceAndProcessInstance sem stdLogic
        (twoServicesStore [svcS2, svcS1]).diffAPI diffRequest)
      = Except.ok [(102, [1]), (101, [])] := by
  cases sem <;> exact ⟨rfl, rfl⟩

/-- C3 (code bug): over a store whose service template has dropped P1 while S still has a
relation and a process bound to P1, the record returned for S has an empty `Removed`
list, both when S has another process bound to the live template P2 and when the
P1 process is its only one: relations are loaded per live template, so the row bound to
P1 is never loaded. -/
theorem C3_dropped_template_not_in_removed (sem : LoopVar) :
    (FindDifferencesBetweenServiceAndProcessInstance sem stdLogic droppedStore.diffAPI
        diffRequest).response
      = Except.ok [{ ServiceInstanceID := 100, ServiceInstanceName := "S", HostID := 7,
                     Differences := { Unchanged := [], Changed := [], Added := [], Removed := [] } }]
    ∧ (FindDifferencesBetweenServiceAndProcessInstance sem stdLogic droppedOnlyStore.diffAPI
        diffRequest).response
      = Except.ok [{ ServiceInstanceID := 100, ServiceInstanceName := "S", HostID := 7,
                     Differences := { Unchanged := [], Changed := [], Added := [], Removed := [] } }] := by
  cases sem <;> exact ⟨rfl, rfl⟩

/-- C4 (code bug): when every read succeeds and the relation list holds one relation of S
whose template id is not listed, `ListServiceInstance` returns the single service instance
S but the response holds two records for S: the record is appended in the Removed branch
(line 303) and again at the end of the iteration (line 354). -/
theorem C4_service_instance_listed_twice (sem : LoopVar) :
    recordOwners (FindDifferencesBetweenServiceAndProcessInstance sem stdLogic strayRelationAPI
        diffRequest)
      = Except.ok [100, 100]
    ∧ strayRelationAPI.ListServiceInstance [] 1 1 1 = some [svcS] := by
  cases sem <;> exact ⟨rfl, rfl⟩

/-! ## The force-sync reconciler on the scenarios -/

/-- C5 (code bug): S is bound to P1 and to P2 and the templates are P1 and P2, every call
succeeds and the run answers with success, yet the run creates a new process for
(S, P1) and afterwards the store holds two relations of S bound to P1.  A target
service instance without any relation gets no process at all: the run issues no write
and the store still holds no relation of S for P1. -/
theorem C5_in_sync_instance_gets_duplicate (sem : LoopVar) :
    (ForceSyncServiceInstanceAccordingToServiceTemplate sem stdLogic inSyncStore.syncAPI
        insertionOrder syncRequest).responses = [SyncResponse.success]
    ∧ createdProcessPairs (ForceSyncServiceInstanceAccordingToServiceTemplate sem stdLogic
        inSyncStore.syncAPI insertionOrder syncRequest).calls = [(100, 1)]
    ∧ ((inSyncStore.after (ForceSyncServiceInstanceAccordingToServiceTemplate sem stdLogic
        inSyncStore.syncAPI insertionOrder syncRequest).calls).relationsOf 100 1).length = 2
    ∧ writeCalls (ForceSyncServiceInstanceAccordingToServiceTemplate sem stdLogic
        emptyServiceStore.syncAPI insertionOrder syncRequest).calls = []
    ∧ (emptyServiceStore.after (ForceSyncServiceInstanceAccordingToServiceTemplate sem stdLogic
        emptyServiceStore.syncAPI insertionOrder syncRequest).calls).relationsOf 100 1 = [] := by
  cases sem <;> exact ⟨rfl, rfl, rfl, rfl, rfl⟩

/-- C6 (code bug): starting from the store in which S is in sync with templates P1 and P2,
a first run succeeds; the check reports `not changed` for every process just updated to
or created from a template; yet a second run with the same request over the store the
first run left issues two more write calls, creating another process for (S, P2). -/
theorem C6_second_run_still_writes (sem : LoopVar) :
    (ForceSyncServiceInstanceAccordingToServiceTemplate sem stdLogic inSyncStore.syncAPI
        insertionOrder syncRequest).responses = [SyncResponse.success]
    ∧ (∀ property process,
        (stdLogic.CheckProcessTemplateAndInstanceIsDifferent property
          (stdLogic.CheckProcessTemplateAndInstanceIsDifferent property process).1).2 = false
        ∧ ∀ id, (stdLogic.CheckProcessTemplateAndInstanceIsDifferent property
          { stdLogic.NewProcessInstanceFromProcessTemplate property with ProcessID := id }).2 = false)
    ∧ (writeCalls (ForceSyncServiceInstanceAccordingToServiceTemplate sem stdLogic
        (inSyncStore.after (ForceSyncServiceInstanceAccordingToServiceTemplate sem stdLogic
          inSyncStore.syncAPI insertionOrder syncRequest).calls).syncAPI
        insertionOrder syncRequest).calls).length = 2
    ∧ createdProcessPairs (ForceSyncServiceInstanceAccordingToServiceTemplate sem stdLogic
        (inSyncStore.after (ForceSyncServiceInstanceAccordingToServiceTemplate sem stdLogic
          inSyncStore.syncAPI insertionOrder syncRequest).calls).syncAPI
        insertionOrder syncRequest).calls = [(100, 2)] := by
  refine ⟨?_, ?_, ?_, ?_⟩
  · cases sem <;> rfl
  · intro property process
    simp [stdLogic]
  · cases sem <;> rfl
  · cases sem <;> rfl

/-- C7: in one run, for every request, every collaborator behaviour and every admissible
order of the map ranges, no two `CreateProcessInstanceRelation` calls carry the same
(ServiceInstanceID, ProcessTemplateID) pair, and no two `CreateProcessInstance` calls
are issued for the same (service instance, process template) pair. -/
theorem C7_one_creation_per_pair (sem : LoopVar) (lg : Logic) (api : SyncAPI)
    (orders : RangeOrders) (req : Option ForceSyncServiceInstanceWithTemplateInput)
    (hv : orders.Valid) :
    (createdRelationPairs
      (ForceSyncServiceInstanceAccordingToServiceTemplate sem lg api orders req).calls).Nodup
    ∧ (createdProcessPairs
      (ForceSyncServiceInstanceAccordingToServiceTemplate sem lg api orders req).calls).Nodup :=
  ⟨forceSync_keys_nodup relationKey (fun _ _ => rfl) (fun _ _ => rfl) (fun _ => rfl)
      (fun _ => rfl) (fun _ => rfl) (fun _ _ => rfl) step6Pair_related sem lg api orders hv req,
   forceSync_keys_nodup createKey (fun _ _ => rfl) (fun _ _ => rfl) (fun _ => rfl)
      (fun _ => rfl) (fun _ => rfl) (fun _ _ => rfl) step6Pair_created sem lg api orders hv req⟩

/-- Witness for C7: the run over the in-sync store, walked in insertion order, which does
create a process and a relation for (S, P1). -/
theorem C7_one_creation_per_pair_witness :
    insertionOrder.Valid
    ∧ (createdRelationPairs (ForceSyncServiceInstanceAccordingToServiceTemplate LoopVar.shared
        stdLogic inSyncStore.syncAPI insertionOrder syncRequest).calls).Nodup
    ∧ (createdProcessPairs (ForceSyncServiceInstanceAccordingToServiceTemplate LoopVar.shared
        stdLogic inSyncStore.syncAPI insertionOrder syncRequest).calls).Nodup :=
  ⟨insertionOrder_valid,
   C7_one_creation_per_pair LoopVar.shared stdLogic inSyncStore.syncAPI insertionOrder syncRequest
     insertionOrder_valid⟩

/-- C8 (code bug): with one loop variable per `range` loop (Go before 1.22), templates
[P2], S holding process 10 bound to the removed template P1 and process 20 bound to P2,
and every call succeeding, the run answers with success without issuing any write: no
`DeleteProcessInstance` and no `DeleteProcessInstanceRelation` for process 10.  Every
entry of `processInstanceMap` points at the loop variable, which holds process 20. -/
theorem C8_removed_process_not_deleted :
    droppedStore.syncAPI.ListProcessTemplates [] 1 1 = some [tplP2]
    ∧ droppedStore.syncAPI.ListProcessInstanceRelation [] 1 [100]
      = some [{ ProcessID := 10, ServiceInstanceID := 100, ProcessTemplateID := 1, HostID := 7 },
              { ProcessID := 20, ServiceInstanceID := 100, ProcessTemplateID := 2, HostID := 7 }]
    ∧ droppedStore.syncAPI.ListProcessInstanceWithIDs [] [10, 20]
      = some [{ ProcessID := 10, Attrs := [("a", 1)] }, { ProcessID := 20, Attrs := [("a", 2)] }]
    ∧ (ForceSyncServiceInstanceAccordingToServiceTemplate LoopVar.shared stdLogic
        droppedStore.syncAPI insertionOrder syncRequest)
      = { calls := [SyncCall.ListProcessTemplates 1 1,
                    SyncCall.ListProcessInstanceRelation 1 [100],
                    SyncCall.ListProcessInstanceWithIDs [10, 20]],
          responses := [SyncResponse.success],
          flow := Flow.returned } := by
  exact ⟨rfl, rfl, rfl, rfl⟩

/-- C9 (code bug): S holds process 10 bound to a removed template and
`DeleteProcessInstanceRelation` fails.  The failed write is the last call, but the run
writes no response at all: building the arguments of the error response dereferences
the nil `template`, and the handler panics. -/
theorem C9_failed_relation_delete_gives_no_response (sem : LoopVar) :
    (ForceSyncServiceInstanceAccordingToServiceTemplate sem stdLogic deleteRelationFailsAPI
        insertionOrder syncRequest)
      = { calls := [SyncCall.ListProcessTemplates 1 1,
                    SyncCall.ListProcessInstanceRelation 1 [100],
                    SyncCall.ListProcessInstanceWithIDs [10],
                    SyncCall.DeleteProcessInstance 10,
                    SyncCall.DeleteProcessInstanceRelation 10],
          responses := [],
          flow := Flow.panicked } := by
  cases sem <;> rfl

/-- C10 (code bug): S holds process 10 bound to a removed template and
`DeleteProcessInstance` fails: the handler panics on `template.ID` with a nil
`template` and ends without a response. -/
theorem C10_failed_delete_panics (sem : LoopVar) :
    (ForceSyncServiceInstanceAccordingToServiceTemplate sem stdLogic deleteFailsAPI
        insertionOrder syncRequest).flow = Flow.panicked
    ∧ (ForceSyncServiceInstanceAccordingToServiceTemplate sem stdLogic deleteFailsAPI
        insertionOrder syncRequest).responses = []
    ∧ (ForceSyncServiceInstanceAccordingToServiceTemplate sem stdLogic deleteFailsAPI
        insertionOrder syncRequest).calls
      = [SyncCall.ListProcessTemplates 1 1,
         SyncCall.ListProcessInstanceRelation 1 [100],
         SyncCall.ListProcessInstanceWithIDs [10],
         SyncCall.DeleteProcessInstance 10] := by
  cases sem <;> exact ⟨rfl, rfl, rfl⟩

/-! ## The difference classifier: call log, empty records, origin of the entries -/

theorem mapSet_mem {ν : Type} (m : List (Int × ν)) (k : Int) (v : ν) (p : Int × ν)
    (h : p ∈ mapSet m k v) : p ∈ m ∨ p = (k, v) := by
  induction m with
  | nil =>
    simp only [mapSet, List.mem_singleton] at h
    exact Or.inr h
  | cons e rest ih =>
    obtain ⟨k', v'⟩ := e
    unfold mapSet at h
    by_cases hk : k' = k
    · simp only [hk, if_true, List.mem_cons] at h
      rcases h with h | h
      · exact Or.inr h
      · exact Or.inl (List.mem_cons_of_mem _ h)
    · simp only [hk, if_false, List.mem_cons] at h
      rcases h with h | h
      · exact Or.inl (by rw [h]; exact List.mem_cons_self _ _)
      · rcases ih h with h1 | h1
        · exact Or.inl (List.mem_cons_of_mem _ h1)
        · exact Or.inr h1

theorem mapGet_mem {ν : Type} (m : List (Int × ν)) (k : Int) (v : ν)
    (h : mapGet m k = some v) : (k, v) ∈ m := by
  unfold mapGet at h
  induction m with
  | nil => simp [List.lookup] at h
  | cons e rest ih =>
    obtain ⟨k', v'⟩ := e
    by_cases hk : k = k'
    · subst hk
      simp only [List.lookup, beq_self_eq_true] at h
      cases h
      exact List.mem_cons_self _ _
    · have hb : (k == k') = false := by simpa using hk
      simp only [List.lookup, hb] at h
      exact List.mem_cons_of_mem _ (ih h)

theorem loopVarAfter_mem {α : Type} (sem : LoopVar) (xs : List α) (x : α) (h : x ∈ xs) :
    loopVarAfter sem xs x ∈ xs := by
  cases sem with
  | perIteration => exact h
  | shared =>
    unfold loopVarAfter
    dsimp only
    cases hl : xs.getLast? with
    | none => simpa using h
    | some a => simpa using List.mem_of_getLast?_eq_some hl

theorem relationLoop_calls (lg : Logic) (api : DiffAPI)
    (attributeMap : List (String × Attribute)) (pTemplateMap : List (Int × ProcessTemplate))
    (serviceInstance : ServiceInstance) :
    ∀ (rs : List ProcessInstanceRelation) (st st' : RelState),
      relationLoop lg api attributeMap pTemplateMap serviceInstance rs st = Except.ok st' →
      st'.calls = st.calls ++ rs.map fetchCall := by
  intro rs
  induction rs with
  | nil =>
    intro st st' h
    simp only [relationLoop, Except.ok.injEq] at h
    subst h
    simp
  | cons r rest ih =>
    intro st st' h
    unfold relationLoop at h
    dsimp only at h
    split at h
    · cases h
    · split at h
      · rw [ih _ _ h]; simp [fetchCall]
      · split at h
        · rw [ih _ _ h]; simp [fetchCall]
        · rw [ih _ _ h]; simp [fetchCall]

theorem step5_calls (lg : Logic) (api : DiffAPI) (attributeMap : List (String × Attribute))
    (templates : List ProcessTemplate) (pTemplateMap : List (Int × ProcessTemplate))
    (serviceRelationMap : List (Int × List ProcessInstanceRelation)) :
    ∀ (sis : List ServiceInstance) (st st' : Step5State),
      step5 lg api attributeMap templates pTemplateMap serviceRelationMap sis st = Except.ok st' →
      st'.calls = st.calls ++
        sis.flatMap (fun s => ((mapGet serviceRelationMap s.ID).getD []).map fetchCall) := by
  intro sis
  induction sis with
  | nil =>
    intro st st' h
    simp only [step5, Except.ok.injEq] at h
    subst h
    simp
  | cons si rest ih =>
    intro st st' h
    unfold step5 at h
    dsimp only at h
    split at h
    · rename_i hz
      rw [ih _ _ h, List.flatMap_cons, List.length_eq_zero.mp hz]
      simp
    · split at h
      · cases h
      · rename_i rs hrs
        rw [ih _ _ h, List.flatMap_cons]
        have := relationLoop_calls lg api attributeMap pTemplateMap si _ _ _ hrs
        simp only [this, List.append_assoc]

theorem step5_keeps (lg : Logic) (api : DiffAPI) (attributeMap : List (String × Attribute))
    (templates : List ProcessTemplate) (pTemplateMap : List (Int × ProcessTemplate))
    (serviceRelationMap : List (Int × List ProcessInstanceRelation)) :
    ∀ (sis : List ServiceInstance) (st st' : Step5State),
      step5 lg api attributeMap templates pTemplateMap serviceRelationMap sis st = Except.ok st' →
      ∀ d ∈ st.differences, d ∈ st'.differences := by
  intro sis
  induction sis with
  | nil =>
    intro st st' h
    simp only [step5, Except.ok.injEq] at h
    subst h
    exact fun d hd => hd
  | cons si rest ih =>
    intro st st' h d hd
    unfold step5 at h
    dsimp only at h
    split at h
    · exact ih _ _ h d (List.mem_append_left _ hd)
    · split at h
      · cases h
      · exact ih _ _ h d (List.mem_append_left _ (List.mem_append_left _ hd))

theorem step5_empty_record (lg : Logic) (api : DiffAPI) (attributeMap : List (String × Attribute))
    (templates : List ProcessTemplate) (pTemplateMap : List (Int × ProcessTemplate))
    (serviceRelationMap : List (Int × List ProcessInstanceRelation)) :
    ∀ (sis : List ServiceInstance) (st st' : Step5State),
      step5 lg api attributeMap templates pTemplateMap serviceRelationMap sis st = Except.ok st' →
      ∀ si ∈ sis, (mapGet serviceRelationMap si.ID).getD [] = [] →
        newDifference si ∈ st'.differences := by
  intro sis
  induction sis with
  | nil => intro st st' _ si hsi; cases hsi
  | cons s rest ih =>
    intro st st' h si hsi hz
    unfold step5 at h
    dsimp only at h
    rcases List.mem_cons.mp hsi with heq | hmem
    · subst heq
      rw [hz] at h
      simp only [List.length_nil, if_true] at h
      exact step5_keeps lg api attributeMap templates pTemplateMap serviceRelationMap _ _ _ h _
        (List.mem_append_right _ (List.mem_singleton.mpr rfl))
    · split at h
      · exact ih _ _ h si hmem hz
      · split at h
        · cases h
        · exact ih _ _ h si hmem hz

theorem step3_calls (sem : LoopVar) (api : DiffAPI) (bizID : Int) (all : List ProcessTemplate) :
    ∀ (ts : List ProcessTemplate) (st st' : Step3State),
      step3 sem api bizID all ts st = Except.ok st' →
      st'.calls = st.calls ++
        ts.map (fun t => DiffCall.ListProcessInstanceRelation bizID t.ID) := by
  intro ts
  induction ts with
  | nil =>
    intro st st' h
    simp only [step3, Except.ok.injEq] at h
    subst h
    simp
  | cons t rest ih =>
    intro st st' h
    unfold step3 at h
    dsimp only at h
    split at h
    · cases h
    · rw [ih _ _ h]; simp

theorem findDifferences_success (sem : LoopVar) (lg : Logic) (api : DiffAPI)
    (input : FindServiceTemplateAndInstanceDifferenceOption) (bizID : Int)
    (ds : List ServiceProcessInstanceDifference)
    (hbiz : input.Metadata = some bizID)
    (hok : (FindDifferencesBetweenServiceAndProcessInstance sem lg api (some input)).response
      = Except.ok ds) :
    ∃ attrs templates s3 sis s5,
      api.ReadModelAttr [] = some attrs
      ∧ api.ListProcessTemplates [DiffCall.ReadModelAttr] bizID input.ServiceTemplateID
          = some templates
      ∧ step3 sem api bizID templates templates
          { pTemplateMap := [], serviceRelationMap := []
            calls := [DiffCall.ReadModelAttr] ++
              [DiffCall.ListProcessTemplates bizID input.ServiceTemplateID] } = Except.ok s3
      ∧ api.ListServiceInstance s3.calls bizID input.ServiceTemplateID input.ModuleID = some sis
      ∧ step5 lg api (buildAttributeMap attrs) templates s3.pTemplateMap s3.serviceRelationMap sis
          { differences := [], processTemplatesUsing := [], shadowed := []
            calls := s3.calls ++
              [DiffCall.ListServiceInstance bizID input.ServiceTemplateID input.ModuleID] }
          = Except.ok s5
      ∧ FindDifferencesBetweenServiceAndProcessInstance sem lg api (some input)
          = { response := Except.ok s5.differences, shadowed := s5.shadowed, calls := s5.calls }
      ∧ ds = s5.differences := by
  have hrun : FindDifferencesBetweenServiceAndProcessInstance sem lg api (some input)
      = FindDifferencesBetweenServiceAndProcessInstance sem lg api (some input) := rfl
  unfold FindDifferencesBetweenServiceAndProcessInstance at hok
  conv at hrun => rhs; unfold FindDifferencesBetweenServiceAndProcessInstance
  dsimp only at hok hrun
  split at hok
  · cases hok
  · rename_i bizID' hbiz'
    rw [hbiz] at hbiz'
    cases hbiz'
    split at hok
    · cases hok
    · rename_i attrs hattr
      split at hok
      · cases hok
      · rename_i templates htpl
        split at hok
        · cases hok
        · rename_i s3 hs3
          split at hok
          · cases hok
          · rename_i sis hsi
            split at hok
            · cases hok
            · rename_i s5 hs5
              simp only [Except.ok.injEq] at hok
              refine ⟨attrs, templates, s3, sis, s5, hattr, htpl, hs3, hsi, hs5, ?_, hok.symm⟩
              rw [hrun]
              simp only [hbiz, hattr, htpl, hs3, hsi, hs5]

theorem step3_values (sem : LoopVar) (api : DiffAPI) (bizID : Int) (all : List ProcessTemplate) :
    ∀ (ts : List ProcessTemplate) (st st' : Step3State),
      step3 sem api bizID all ts st = Except.ok st' →
      (∀ t ∈ ts, t ∈ all) → (∀ p ∈ st.pTemplateMap, p.2 ∈ all) →
      ∀ p ∈ st'.pTemplateMap, p.2 ∈ all := by
  intro ts
  induction ts with
  | nil =>
    intro st st' h _ hv
    simp only [step3, Except.ok.injEq] at h
    subst h
    exact hv
  | cons t rest ih =>
    intro st st' h hts hv
    unfold step3 at h
    dsimp only at h
    split at h
    · cases h
    · refine ih _ _ h (fun x hx => hts x (List.mem_cons_of_mem _ hx)) ?_
      intro p hp
      rcases mapSet_mem _ _ _ _ hp with h1 | h1
      · exact hv p h1
      · rw [h1]
        exact loopVarAfter_mem sem all t (hts t (List.mem_cons_self _ _))

theorem newDifference_sourced (templates : List ProcessTemplate) (si : ServiceInstance) :
    Sourced templates (newDifference si) := by
  intro e he
  simp [newDifference, NewDifferenceDetail] at he

theorem relationLoop_sourced (lg : Logic) (api : DiffAPI)
    (attributeMap : List (String × Attribute)) (pTemplateMap : List (Int × ProcessTemplate))
    (serviceInstance : ServiceInstance) (templates : List ProcessTemplate)
    (hmap : ∀ p ∈ pTemplateMap, p.2 ∈ templates) :
    ∀ (rs : List ProcessInstanceRelation) (st st' : RelState),
      relationLoop lg api attributeMap pTemplateMap serviceInstance rs st = Except.ok st' →
      Sourced templates st.diff → (∀ d ∈ st.shadowed, Sourced templates d) →
      Sourced templates st'.diff ∧ ∀ d ∈ st'.shadowed, Sourced templates d := by
  intro rs
  induction rs with
  | nil =>
    intro st st' h hd hs
    simp only [relationLoop, Except.ok.injEq] at h
    subst h
    exact ⟨hd, hs⟩
  | cons r rest ih =>
    intro st st' h hd hs
    unfold relationLoop at h
    dsimp only at h
    split at h
    · cases h
    · split at h
      · exact ih _ _ h hd hs
      · rename_i pTemplate hget
        have hlisted : pTemplate ∈ templates := hmap _ (mapGet_mem _ _ _ hget)
        split at h
        · refine ih _ _ h hd ?_
          intro d hmem
          rcases List.mem_append.mp hmem with h1 | h1
          · exact hs d h1
          · rw [List.mem_singleton] at h1
            subst h1
            exact newDifference_sourced templates serviceInstance
        · rename_i property hprop
          refine ih _ _ h hd ?_
          intro d hmem
          rcases List.mem_append.mp hmem with h1 | h1
          · exact hs d h1
          · rw [List.mem_singleton] at h1
            subst h1
            intro e he
            refine ⟨pTemplate, hlisted, ?_, by rw [hprop]; simp⟩
            split at he <;>
              simp [newDifference, NewDifferenceDetail] at he <;>
              rw [he]

theorem addedLoop_sourced (lg : Logic) (using_ : List (Int × Bool))
    (templates : List ProcessTemplate) :
    ∀ (ts : List ProcessTemplate) (d : ServiceProcessInstanceDifference),
      (∀ t ∈ ts, t ∈ templates) → Sourced templates d →
      Sourced templates (addedLoop lg using_ ts d) := by
  intro ts
  unfold addedLoop
  induction ts with
  | nil => intro d _ h; exact h
  | cons t rest ih =>
    intro d hts h
    rw [List.foldl_cons]
    refine ih _ (fun x hx => hts x (List.mem_cons_of_mem _ hx)) ?_
    split
    · exact h
    · split
      · exact h
      · rename_i property hprop
        intro e he
        simp only [List.mem_append, List.mem_singleton] at he
        rcases he with ((h1 | h1) | h1) | h1
        · exact h e (by simp [h1])
        · exact ⟨t, hts t (List.mem_cons_self _ _), by rw [h1], by rw [hprop]; simp⟩
        · exact h e (by simp [h1])
        · exact h e (by simp [h1])

theorem step5_sourced (lg : Logic) (api : DiffAPI) (attributeMap : List (String × Attribute))
    (templates : List ProcessTemplate) (pTemplateMap : List (Int × ProcessTemplate))
    (serviceRelationMap : List (Int × List ProcessInstanceRelation))
    (hmap : ∀ p ∈ pTemplateMap, p.2 ∈ templates) :
    ∀ (sis : List ServiceInstance) (st st' : Step5State),
      step5 lg api attributeMap templates pTemplateMap serviceRelationMap sis st = Except.ok st' →
      (∀ d ∈ st.differences, Sourced templates d) → (∀ d ∈ st.shadowed, Sourced templates d) →
      (∀ d ∈ st'.differences, Sourced templates d) ∧ ∀ d ∈ st'.shadowed, Sourced templates d := by
  intro sis
  induction sis with
  | nil =>
    intro st st' h hd hs
    simp only [step5, Except.ok.injEq] at h
    subst h
    exact ⟨hd, hs⟩
  | cons si rest ih =>
    intro st st' h hd hs
    unfold step5 at h
    dsimp only at h
    split at h
    · refine ih _ _ h ?_ hs
      intro d hmem
      rcases List.mem_append.mp hmem with h1 | h1
      · exact hd d h1
      · rw [List.mem_singleton] at h1
        subst h1
        exact newDifference_sourced templates si
    · split at h
      · cases h
      · rename_i rs hrs
        obtain ⟨hdiff, hshadow⟩ := relationLoop_sourced lg api attributeMap pTemplateMap si
          templates hmap _ _ _ hrs (newDifference_sourced templates si) hs
        have hfinal : Sourced templates (addedLoop lg rs.processTemplatesUsing templates rs.diff) :=
          addedLoop_sourced lg _ templates templates _ (fun _ ht => ht) hdiff
        refine ih _ _ h ?_ hshadow
        intro d hmem
        simp only [List.mem_append, List.mem_replicate, List.mem_singleton] at hmem
        rcases hmem with (h1 | ⟨_, h1⟩) | h1
        · exact hd d h1
        · subst h1; exact hfinal
        · subst h1; exact hfinal

theorem relationLoop_getDifference (lg : Logic) (api : DiffAPI)
    (getDifference : Option ProcessProperty → Process → List (String × Attribute) →
      List ProcessChangedAttribute)
    (hsame : ∀ property process attributeMap,
      getDifference (some property) process attributeMap
        = lg.GetDifferenceInProcessTemplateAndInstance (some property) process attributeMap)
    (attributeMap : List (String × Attribute)) (pTemplateMap : List (Int × ProcessTemplate))
    (serviceInstance : ServiceInstance) :
    ∀ (rs : List ProcessInstanceRelation) (st : RelState),
      relationLoop { lg with GetDifferenceInProcessTemplateAndInstance := getDifference } api
          attributeMap pTemplateMap serviceInstance rs st
        = relationLoop lg api attributeMap pTemplateMap serviceInstance rs st := by
  intro rs
  induction rs with
  | nil => intro st; rfl
  | cons r rest ih =>
    intro st
    unfold relationLoop
    dsimp only
    split
    · rfl
    · split
      · exact ih _
      · split
        · exact ih _
        · rw [hsame]
          exact ih _

theorem step5_getDifference (lg : Logic) (api : DiffAPI)
    (getDifference : Option ProcessProperty → Process → List (String × Attribute) →
      List ProcessChangedAttribute)
    (hsame : ∀ property process attributeMap,
      getDifference (some property) process attributeMap
        = lg.GetDifferenceInProcessTemplateAndInstance (some property) process attributeMap)
    (attributeMap : List (String × Attribute))
    (templates : List ProcessTemplate) (pTemplateMap : List (Int × ProcessTemplate))
    (serviceRelationMap : List (Int × List ProcessInstanceRelation)) :
    ∀ (sis : List ServiceInstance) (st : Step5State),
      step5 { lg with GetDifferenceInProcessTemplateAndInstance := getDifference } api
          attributeMap templates pTemplateMap serviceRelationMap sis st
        = step5 lg api attributeMap templates pTemplateMap serviceRelationMap sis st := by
  intro sis
  induction sis with
  | nil => intro st; rfl
  | cons si rest ih =>
    intro st
    unfold step5
    dsimp only
    rw [relationLoop_getDifference lg api getDifference hsame]
    split
    · exact ih _
    · split
      · rfl
      · exact ih _

theorem findDifferences_getDifference (sem : LoopVar) (lg : Logic) (api : DiffAPI)
    (getDifference : Option ProcessProperty → Process → List (String × Attribute) →
      List ProcessChangedAttribute)
    (hsame : ∀ property process attributeMap,
      getDifference (some property) process attributeMap
        = lg.GetDifferenceInProcessTemplateAndInstance (some property) process attributeMap)
    (req : Option FindServiceTemplateAndInstanceDifferenceOption) :
    FindDifferencesBetweenServiceAndProcessInstance sem
        { lg with GetDifferenceInProcessTemplateAndInstance := getDifference } api req
      = FindDifferencesBetweenServiceAndProcessInstance sem lg api req := by
  unfold FindDifferencesBetweenServiceAndProcessInstance
  simp only [step5_getDifference lg api getDifference hsame]

/-- C11 (as amended): a listed template whose Property is null is never compared, and its
id is surfaced only through another listed template with the same id and a non-null
Property.  First, the run (response, dropped records and call log) is the same whatever
`GetDifferenceInProcessTemplateAndInstance` would answer for a null Property: replacing
it by any function that agrees with it on non-null Properties changes nothing, for every
request and all collaborator responses.  Second, in a success response every entry of
the Added, Changed and Unchanged lists of every returned record (and of every record the
handler built and dropped) carries the id of a listed template whose Property is not
null; so the id of a listed template with a null Property is the ProcessTemplateID of no
such entry unless some listed template with that id has a non-null Property. -/
theorem C11_entries_carry_ids_of_templates_with_property (sem : LoopVar) (lg : Logic)
    (api : DiffAPI) (req : Option FindServiceTemplateAndInstanceDifferenceOption)
    (getDifference : Option ProcessProperty → Process → List (String × Attribute) →
      List ProcessChangedAttribute)
    (hsame : ∀ property process attributeMap,
      getDifference (some property) process attributeMap
        = lg.GetDifferenceInProcessTemplateAndInstance (some property) process attributeMap) :
    FindDifferencesBetweenServiceAndProcessInstance sem
        { lg with GetDifferenceInProcessTemplateAndInstance := getDifference } api req
      = FindDifferencesBetweenServiceAndProcessInstance sem lg api req
    ∧ ∀ input bizID templates ds,
        req = some input → input.Metadata = some bizID →
        api.ListProcessTemplates [DiffCall.ReadModelAttr] bizID input.ServiceTemplateID
          = some templates →
        (FindDifferencesBetweenServiceAndProcessInstance sem lg api req).response
          = Except.ok ds →
        (∀ d ∈ ds ++ (FindDifferencesBetweenServiceAndProcessInstance sem lg api req).shadowed,
          ∀ e ∈ d.Differences.Added ++ d.Differences.Changed ++ d.Differences.Unchanged,
            ∃ t ∈ templates, t.ID = e.ProcessTemplateID ∧ t.Property ≠ none)
        ∧ (∀ t ∈ templates, t.Property = none →
            (∀ t' ∈ templates, t'.ID = t.ID → t'.Property = none) →
              ∀ d ∈ ds ++ (FindDifferencesBetweenServiceAndProcessInstance sem lg api req).shadowed,
              ∀ e ∈ d.Differences.Added ++ d.Differences.Changed ++ d.Differences.Unchanged,
                e.ProcessTemplateID ≠ t.ID) := by
  refine ⟨findDifferences_getDifference sem lg api getDifference hsame req, ?_⟩
  intro input bizID templates ds hreq hbiz htpl hok
  subst hreq
  obtain ⟨attrs, templates', s3, sis, s5, _, htpl', hs3, _, hs5, hrun, hds⟩ :=
    findDifferences_success sem lg api input bizID ds hbiz hok
  rw [htpl] at htpl'
  cases htpl'
  have hmap : ∀ p ∈ s3.pTemplateMap, p.2 ∈ templates :=
    step3_values sem api bizID templates templates _ s3 hs3 (fun _ ht => ht)
      (fun p hp => by cases hp)
  obtain ⟨hdiffs, hshadow⟩ := step5_sourced lg api _ templates _ _ hmap sis _ s5 hs5
    (fun d hd => by cases hd) (fun d hd => by cases hd)
  have hall : ∀ d ∈ ds ++
      (FindDifferencesBetweenServiceAndProcessInstance sem lg api (some input)).shadowed,
      Sourced templates d := by
    intro d hd
    rw [hrun, hds] at hd
    rcases List.mem_append.mp hd with h1 | h1
    · exact hdiffs d h1
    · exact hshadow d h1
  refine ⟨hall, ?_⟩
  intro t _ _ honly d hd e he heq
  obtain ⟨t', ht', hid, hprop⟩ := hall d hd e he
  exact hprop (honly t' ht' (hid.trans heq))

/-- Witness for C11 (as amended): templates P3 (null Property) and P2, S1 bound to P2 and
S2 bound to P3.  A diff function that raises an alarm on a null Property leaves the run
unchanged, and no entry of the response or of the dropped records carries the id of P3. -/
theorem C11_entries_carry_ids_of_templates_with_property_witness :
    FindDifferencesBetweenServiceAndProcessInstance LoopVar.shared
        { stdLogic with GetDifferenceInProcessTemplateAndInstance := alarmOnNull }
        nullTemplateStore.diffAPI (some diffInput)
      = FindDifferencesBetweenServiceAndProcessInstance LoopVar.shared stdLogic
          nullTemplateStore.diffAPI (some diffInput)
    ∧ ∀ d ∈ nullTemplateDifferences ++
        (FindDifferencesBetweenServiceAndProcessInstance LoopVar.shared stdLogic
          nullTemplateStore.diffAPI (some diffInput)).shadowed,
      ∀ e ∈ d.Differences.Added ++ d.Differences.Changed ++ d.Differences.Unchanged,
        e.ProcessTemplateID ≠ tplNull.ID :=
  ⟨(C11_entries_carry_ids_of_templates_with_property LoopVar.shared stdLogic
      nullTemplateStore.diffAPI (some diffInput) alarmOnNull (fun _ _ _ => rfl)).1,
   ((C11_entries_carry_ids_of_templates_with_property LoopVar.shared stdLogic
      nullTemplateStore.diffAPI (some diffInput) alarmOnNull (fun _ _ _ => rfl)).2 diffInput 1
      [tplNull, tplP2] nullTemplateDifferences rfl rfl rfl rfl).2 tplNull (by simp) rfl
      (by decide)⟩

/-- Counterexample to C11 as stated: `ListProcessTemplates` lists two templates with id 3,
the first with a null Property, the second with a=1, and P2; S1 has one process bound
to P2.  Every read succeeds and, under either loop-variable semantics, the record
returned for S1 has an Added entry whose ProcessTemplateID is 3, the id of the listed
template whose Property is null. -/
theorem C11_null_template_id_surfaces_through_twin :
    twinTemplateStore.diffAPI.ListProcessTemplates [DiffCall.ReadModelAttr] 1 1
      = some [tplNull, tplTwin, tplP2]
    ∧ tplNull.Property = none
    ∧ (FindDifferencesBetweenServiceAndProcessInstance LoopVar.shared stdLogic
        twinTemplateStore.diffAPI (some diffInput)).response = Except.ok twinDifferences
    ∧ (FindDifferencesBetweenServiceAndProcessInstance LoopVar.perIteration stdLogic
        twinTemplateStore.diffAPI (some diffInput)).response = Except.ok twinDifferences
    ∧ ¬ (∀ t ∈ [tplNull, tplTwin, tplP2], t.Property = none →
          ∀ d ∈ twinDifferences,
          ∀ e ∈ d.Differences.Added ++ d.Differences.Changed ++ d.Differences.Unchanged,
            e.ProcessTemplateID ≠ t.ID) := by
  refine ⟨rfl, rfl, rfl, rfl, ?_⟩
  intro h
  exact h tplNull (by simp) rfl
    { ServiceInstanceID := 101, ServiceInstanceName := "S1", HostID := 7,
      Differences := { Unchanged := [], Changed := [],
                       Added := [{ ProcessTemplateID := 3,
                                   ProcessInstance := { ProcessID := 0, Attrs := [("a", 1)] },
                                   ChangedAttributes := [] }],
                       Removed := [] } }
    (by simp [twinDifferences])
    { ProcessTemplateID := 3, ProcessInstance := { ProcessID := 0, Attrs := [("a", 1)] },
      ChangedAttributes := [] }
    (by simp) rfl

/-- C12: in a success response, a listed service instance whose group in
`serviceRelationMap` is empty has a record carrying its ID, name and host id with four
empty lists, whatever templates are listed; and every `GetProcessInstanceWithID` call of
the run fetches the process of a loaded relation of another listed service instance. -/
theorem C12_zero_relations_empty_record (sem : LoopVar) (lg : Logic) (api : DiffAPI)
    (input : FindServiceTemplateAndInstanceDifferenceOption) (bizID : Int)
    (templates : List ProcessTemplate) (s3 : Step3State) (sis : List ServiceInstance)
    (ds : List ServiceProcessInstanceDifference) (si : ServiceInstance)
    (hbiz : input.Metadata = some bizID)
    (htpl : api.ListProcessTemplates [DiffCall.ReadModelAttr] bizID input.ServiceTemplateID
      = some templates)
    (hs3 : step3 sem api bizID templates templates
      { pTemplateMap := [], serviceRelationMap := []
        calls := [DiffCall.ReadModelAttr] ++
          [DiffCall.ListProcessTemplates bizID input.ServiceTemplateID] } = Except.ok s3)
    (hsi : api.ListServiceInstance s3.calls bizID input.ServiceTemplateID input.ModuleID = some sis)
    (hok : (FindDifferencesBetweenServiceAndProcessInstance sem lg api (some input)).response
      = Except.ok ds)
    (hmem : si ∈ sis)
    (hzero : ((mapGet s3.serviceRelationMap si.ID).getD []).length = 0) :
    ({ ServiceInstanceID := si.ID, ServiceInstanceName := si.Name, HostID := si.HostID,
       Differences := { Unchanged := [], Changed := [], Added := [], Removed := [] } } :
        ServiceProcessInstanceDifference) ∈ ds
    ∧ ∀ processID, DiffCall.GetProcessInstanceWithID processID ∈
        (FindDifferencesBetweenServiceAndProcessInstance sem lg api (some input)).calls →
        ∃ s ∈ sis, s.ID ≠ si.ID ∧
          ∃ r ∈ (mapGet s3.serviceRelationMap s.ID).getD [], r.ProcessID = processID := by
  obtain ⟨attrs, templates', s3', sis', s5, _, htpl', hs3', hsi', hs5, hrun, hds⟩ :=
    findDifferences_success sem lg api input bizID ds hbiz hok
  rw [htpl] at htpl'
  cases htpl'
  rw [hs3] at hs3'
  cases hs3'
  rw [hsi] at hsi'
  cases hsi'
  have hz : (mapGet s3.serviceRelationMap si.ID).getD [] = [] := List.length_eq_zero.mp hzero
  constructor
  · rw [hds]
    exact step5_empty_record lg api _ templates _ _ sis _ s5 hs5 si hmem hz
  · intro processID hcall
    rw [hrun] at hcall
    dsimp only at hcall
    rw [step5_calls lg api _ templates _ _ sis _ s5 hs5,
      step3_calls sem api bizID templates templates _ s3 hs3] at hcall
    simp only [List.mem_append, List.mem_cons, List.mem_singleton, List.mem_map,
      List.mem_flatMap, List.not_mem_nil, or_false, false_or, reduceCtorEq, fetchCall,
      exists_const, and_false, DiffCall.GetProcessInstanceWithID.injEq] at hcall
    rcases hcall with ⟨_, hf⟩ | ⟨s, hs, r, hr, hpid⟩
    · exact hf.elim
    refine ⟨s, hs, ?_, r, hr, hpid⟩
    intro heq
    rw [heq, hz] at hr
    cases hr

/-- Witness for C12: templates P1 and P2 are live, S1 has one process and S2 has no
relation; the response holds the empty record of S2 and the only fetch is for S1. -/
theorem C12_zero_relations_empty_record_witness :
    ({ ServiceInstanceID := 102, ServiceInstanceName := "S2", HostID := 8,
       Differences := { Unchanged := [], Changed := [], Added := [], Removed := [] } } :
        ServiceProcessInstanceDifference) ∈ idleDifferences
    ∧ ∀ processID, DiffCall.GetProcessInstanceWithID processID ∈
        (FindDifferencesBetweenServiceAndProcessInstance LoopVar.shared stdLogic
          idleServiceStore.diffAPI (some diffInput)).calls →
        ∃ s ∈ [svcS1, svcS2], s.ID ≠ svcS2.ID ∧
          ∃ r ∈ (mapGet idleStep3.serviceRelationMap s.ID).getD [], r.ProcessID = processID :=
  C12_zero_relations_empty_record LoopVar.shared stdLogic idleServiceStore.diffAPI diffInput 1
    [tplP1, tplP2] idleStep3 [svcS1, svcS2] idleDifferences svcS2 rfl rfl rfl rfl rfl
    (by simp) rfl

/-! ## The force-sync reconciler: unresolved relations, targets of the writes, success -/

theorem mapGet_isSome_iff {ν : Type} (m : List (Int × ν)) (k : Int) :
    (mapGet m k).isSome = true ↔ k ∈ mapKeys m := by
  unfold mapGet mapKeys
  induction m with
  | nil => simp [List.lookup]
  | cons e rest ih =>
    obtain ⟨k', v'⟩ := e
    by_cases hk : k = k'
    · subst hk
      simp [List.lookup]
    · have hb : (k == k') = false := by simpa using hk
      simp only [List.lookup, hb, List.map_cons, List.mem_cons, hk, false_or]
      exact ih

theorem buildPointerMap_values {α : Type} (sem : LoopVar) (key : α → Int) (xs : List α) :
    ∀ p ∈ buildPointerMap sem key xs, p.2 ∈ xs := by
  unfold buildPointerMap
  have : ∀ (ys : List α) (m : List (Int × α)), (∀ y ∈ ys, y ∈ xs) → (∀ p ∈ m, p.2 ∈ xs) →
      ∀ p ∈ ys.foldl (fun m x => mapSet m (key x) (loopVarAfter sem xs x)) m, p.2 ∈ xs := by
    intro ys
    induction ys with
    | nil => intro m _ hm; simpa using hm
    | cons y rest ih =>
      intro m hys hm
      rw [List.foldl_cons]
      refine ih _ (fun z hz => hys z (List.mem_cons_of_mem _ hz)) ?_
      intro p hp
      rcases mapSet_mem _ _ _ _ hp with h1 | h1
      · exact hm p h1
      · rw [h1]
        exact loopVarAfter_mem sem xs y (hys y (List.mem_cons_self _ _))
  exact this xs [] (fun _ h => h) (fun p hp => by cases hp)

theorem buildPointerMap_keys {α : Type} (sem : LoopVar) (key : α → Int) (xs : List α) (k : Int) :
    k ∈ mapKeys (buildPointerMap sem key xs) ↔ k ∈ xs.map key := by
  unfold buildPointerMap
  have : ∀ (ys : List α) (m : List (Int × α)),
      k ∈ mapKeys (ys.foldl (fun m x => mapSet m (key x) (loopVarAfter sem xs x)) m) ↔
        k ∈ mapKeys m ∨ k ∈ ys.map key := by
    intro ys
    induction ys with
    | nil => intro m; simp
    | cons y rest ih =>
      intro m
      rw [List.foldl_cons, ih, mem_mapKeys_mapSet]
      simp only [List.map_cons, List.mem_cons]
      tauto
  rw [this xs []]
  simp [mapKeys]

theorem step4Relation_processes (pim : List (Int × Process)) (known : List Process)
    (hpim : ∀ p ∈ pim, p.2 ∈ known) (st : Step4State) (r : ProcessInstanceRelation)
    (h : ∀ e ∈ st.serviceInstanceWithProcessMap, ∀ q ∈ e.2, q ∈ known) :
    ∀ e ∈ (step4Relation pim st r).serviceInstanceWithProcessMap, ∀ q ∈ e.2, q ∈ known := by
  unfold step4Relation
  cases hget : mapGet pim r.ProcessID with
  | none => exact h
  | some p =>
    dsimp only
    intro e he q hq
    rcases mapSet_mem _ _ _ _ he with h1 | h1
    · exact h e h1 q hq
    · rw [h1] at hq
      rcases List.mem_append.mp hq with h2 | h2
      · cases hold : mapGet st.serviceInstanceWithProcessMap r.ServiceInstanceID with
        | none => rw [hold] at h2; cases h2
        | some l =>
          rw [hold] at h2
          exact h _ (mapGet_mem _ _ _ hold) q h2
      · rw [List.mem_singleton] at h2
        rw [h2]
        exact hpim _ (mapGet_mem _ _ _ hget)

theorem step4_processes (pim : List (Int × Process)) (known : List Process)
    (hpim : ∀ p ∈ pim, p.2 ∈ known) (relations : List ProcessInstanceRelation) :
    ∀ e ∈ (step4 pim relations).serviceInstanceWithProcessMap, ∀ q ∈ e.2, q ∈ known := by
  unfold step4
  have : ∀ (rs : List ProcessInstanceRelation) (st : Step4State),
      (∀ e ∈ st.serviceInstanceWithProcessMap, ∀ q ∈ e.2, q ∈ known) →
      ∀ e ∈ (rs.foldl (step4Relation pim) st).serviceInstanceWithProcessMap,
        ∀ q ∈ e.2, q ∈ known := by
    intro rs
    induction rs with
    | nil => intro st h; simpa using h
    | cons r rest ih => intro st h; exact ih _ (step4Relation_processes pim known hpim st r h)
  exact this relations _ (fun e he => by cases he)

theorem step4_skips_unresolved (pim : List (Int × Process))
    (relations : List ProcessInstanceRelation) :
    step4 pim relations
      = step4 pim (relations.filter (fun r => (mapGet pim r.ProcessID).isSome)) := by
  unfold step4
  have : ∀ (rs : List ProcessInstanceRelation) (st : Step4State),
      rs.foldl (step4Relation pim) st
        = (rs.filter (fun r => (mapGet pim r.ProcessID).isSome)).foldl (step4Relation pim) st := by
    intro rs
    induction rs with
    | nil => intro st; rfl
    | cons r rest ih =>
      intro st
      cases hget : mapGet pim r.ProcessID with
      | none =>
        have hskip : step4Relation pim st r = st := by
          unfold step4Relation
          rw [hget]
        rw [List.foldl_cons, hskip, List.filter_cons]
        simp only [hget, Option.isSome_none, Bool.false_eq_true, if_false]
        exact ih st
      | some p =>
        rw [List.foldl_cons, List.filter_cons]
        simp only [hget, Option.isSome_some, if_true, List.foldl_cons]
        exact ih _
  exact this relations _

theorem forEach_calls_all {α : Type} (P : SyncCall → Prop) (body : α → SyncState → SyncState) :
    ∀ (xs : List α),
      (∀ x ∈ xs, ∀ st, ∃ new, (body x st).calls = st.calls ++ new ∧ ∀ c ∈ new, P c) →
      ∀ st, ∃ new, (forEach body xs st).calls = st.calls ++ new ∧ ∀ c ∈ new, P c := by
  intro xs
  induction xs with
  | nil => intro _ st; exact ⟨[], by simp [forEach], by simp⟩
  | cons x rest ih =>
    intro hbody st
    unfold forEach
    cases hflow : st.flow with
    | running =>
      obtain ⟨n1, h1, p1⟩ := hbody x (List.mem_cons_self _ _) st
      obtain ⟨n2, h2, p2⟩ := ih (fun y hy => hbody y (List.mem_cons_of_mem _ hy)) (body x st)
      refine ⟨n1 ++ n2, ?_, ?_⟩
      · simp only [h2, h1, List.append_assoc]
      · intro c hc
        rcases List.mem_append.mp hc with h | h
        · exact p1 c h
        · exact p2 c h
    | returned => exact ⟨[], by simp, by simp⟩
    | panicked => exact ⟨[], by simp, by simp⟩

theorem step5Process_targets (lg : Logic) (api : SyncAPI)
    (ptm : List (Int × ProcessTemplate)) (pitm : List (Int × Int))
    (process : Process) (st : SyncState) :
    ∃ new, (step5Process lg api ptm pitm process st).calls = st.calls ++ new ∧
      ∀ c ∈ new, ∀ processID, writeTarget c = some processID → processID = process.ProcessID := by
  unfold step5Process
  split
  · split
    · exact ⟨[SyncCall.DeleteProcessInstance process.ProcessID], rfl, by simp [writeTarget]⟩
    · dsimp only
      split
      · exact ⟨[SyncCall.DeleteProcessInstance process.ProcessID,
          SyncCall.DeleteProcessInstanceRelation process.ProcessID], by simp,
          by simp [writeTarget]⟩
      · exact ⟨[SyncCall.DeleteProcessInstance process.ProcessID,
          SyncCall.DeleteProcessInstanceRelation process.ProcessID], by simp,
          by simp [writeTarget]⟩
  · rename_i template _
    dsimp only
    split
    · split
      · exact ⟨[SyncCall.UpdateProcessInstance process.ProcessID
          (lg.CheckProcessTemplateAndInstanceIsDifferent template.Property process).1],
          by simp [SyncState.respondError], by simp [writeTarget]⟩
      · exact ⟨[SyncCall.UpdateProcessInstance process.ProcessID
          (lg.CheckProcessTemplateAndInstanceIsDifferent template.Property process).1],
          by simp, by simp [writeTarget]⟩
    · exact ⟨[], by simp, by simp⟩

theorem step5Sync_targets (lg : Logic) (api : SyncAPI) (orders : RangeOrders)
    (ptm : List (Int × ProcessTemplate)) (s4 : Step4State) (known : List Process)
    (hknown : ∀ e ∈ s4.serviceInstanceWithProcessMap, ∀ q ∈ e.2, q ∈ known) (st : SyncState) :
    ∃ new, (step5Sync lg api orders ptm s4 st).calls = st.calls ++ new ∧
      ∀ c ∈ new, ∀ processID, writeTarget c = some processID →
        processID ∈ known.map Process.ProcessID := by
  unfold step5Sync
  apply forEach_calls_all
  intro svcInstanceID _ st
  apply forEach_calls_all
  intro process hprocess st
  obtain ⟨new, h1, h2⟩ := step5Process_targets lg api ptm s4.processInstanceWithTemplateMap
    process st
  refine ⟨new, h1, ?_⟩
  intro c hc processID ht
  rw [h2 c hc processID ht]
  cases hget : mapGet s4.serviceInstanceWithProcessMap svcInstanceID with
  | none => rw [hget] at hprocess; cases hprocess
  | some l =>
    rw [hget] at hprocess
    exact List.mem_map_of_mem _ (hknown _ (mapGet_mem _ _ _ hget) process hprocess)

theorem step6Pair_targets (lg : Logic) (api : SyncAPI) (s4 : Step4State) (id : Int)
    (pt : ProcessTemplate) (svcID : Int) (st : SyncState) :
    ∃ new, (step6Pair lg api s4 id pt svcID st).calls = st.calls ++ new ∧
      ∀ c ∈ new, writeTarget c = none := by
  unfold step6Pair
  split
  · exact ⟨[], by simp, by simp⟩
  · dsimp only
    split
    · exact ⟨[SyncCall.CreateProcessInstance svcID id
          (lg.NewProcessInstanceFromProcessTemplate pt.Property)],
        by simp [SyncState.respondError], by simp [writeTarget]⟩
    · rename_i process _
      split
      · exact ⟨[SyncCall.CreateProcessInstance svcID id
            (lg.NewProcessInstanceFromProcessTemplate pt.Property),
          SyncCall.CreateProcessInstanceRelation
            { ProcessID := int64 process, ServiceInstanceID := svcID, ProcessTemplateID := id,
              HostID := (mapGet s4.serviceInstanceWithHostMap svcID).getD 0 }],
          by simp [SyncState.respondError], by simp [writeTarget]⟩
      · exact ⟨[SyncCall.CreateProcessInstance svcID id
            (lg.NewProcessInstanceFromProcessTemplate pt.Property),
          SyncCall.CreateProcessInstanceRelation
            { ProcessID := int64 process, ServiceInstanceID := svcID, ProcessTemplateID := id,
              HostID := (mapGet s4.serviceInstanceWithHostMap svcID).getD 0 }],
          by simp, by simp [writeTarget]⟩

theorem step6Sync_targets (lg : Logic) (api : SyncAPI) (orders : RangeOrders)
    (ptm : List (Int × ProcessTemplate)) (s4 : Step4State) (st : SyncState) :
    ∃ new, (step6Sync lg api orders ptm s4 st).calls = st.calls ++ new ∧
      ∀ c ∈ new, writeTarget c = none := by
  unfold step6Sync
  apply forEach_calls_all
  intro id _ st
  cases mapGet ptm id with
  | none => exact ⟨[], by simp, by simp⟩
  | some pt =>
    dsimp only
    apply forEach_calls_all
    intro svcID _ st
    exact step6Pair_targets lg api s4 id pt svcID st

theorem forEach_running {α : Type} (R : List SyncResponse) (body : α → SyncState → SyncState)
    (hbody : ∀ x st, st.flow = Flow.running → st.responses = R →
      (body x st).flow = Flow.running ∧ (body x st).responses = R) :
    ∀ (xs : List α) (st : SyncState), st.flow = Flow.running → st.responses = R →
      (forEach body xs st).flow = Flow.running ∧ (forEach body xs st).responses = R := by
  intro xs
  induction xs with
  | nil => intro st h1 h2; exact ⟨h1, h2⟩
  | cons x rest ih =>
    intro st h1 h2
    unfold forEach
    rw [h1]
    dsimp only
    exact ih _ (hbody x st h1 h2).1 (hbody x st h1 h2).2

theorem step5Process_running (lg : Logic) (api : SyncAPI) (hw : api.WritesSucceed)
    (R : List SyncResponse) (ptm : List (Int × ProcessTemplate)) (pitm : List (Int × Int))
    (process : Process) (st : SyncState) (h1 : st.flow = Flow.running) (h2 : st.responses = R) :
    (step5Process lg api ptm pitm process st).flow = Flow.running ∧
      (step5Process lg api ptm pitm process st).responses = R := by
  unfold step5Process
  split
  · split
    · rename_i hnone
      exact absurd hnone (hw.1 _ _)
    · dsimp only
      split
      · rename_i hnone
        exact absurd hnone (hw.2.1 _ _)
      · exact ⟨h1, h2⟩
  · dsimp only
    split
    · split
      · rename_i hnone
        exact absurd hnone (hw.2.2.1 _ _ _)
      · exact ⟨h1, h2⟩
    · exact ⟨h1, h2⟩

theorem step6Pair_running (lg : Logic) (api : SyncAPI) (hw : api.WritesSucceed)
    (R : List SyncResponse) (s4 : Step4State) (id : Int) (pt : ProcessTemplate) (svcID : Int)
    (st : SyncState) (h1 : st.flow = Flow.running) (h2 : st.responses = R) :
    (step6Pair lg api s4 id pt svcID st).flow = Flow.running ∧
      (step6Pair lg api s4 id pt svcID st).responses = R := by
  unfold step6Pair
  split
  · exact ⟨h1, h2⟩
  · dsimp only
    split
    · rename_i hnone
      exact absurd hnone (hw.2.2.2.1 _ _)
    · split
      · rename_i hnone
        exact absurd hnone (hw.2.2.2.2 _ _)
      · exact ⟨h1, h2⟩

theorem steps_running (lg : Logic) (api : SyncAPI) (hw : api.WritesSucceed)
    (orders : RangeOrders) (ptm : List (Int × ProcessTemplate)) (s4 : Step4State)
    (st : SyncState) (h1 : st.flow = Flow.running) (h2 : st.responses = []) :
    (respondSuccess (step6Sync lg api orders ptm s4 (step5Sync lg api orders ptm s4 st))).responses
        = [SyncResponse.success]
    ∧ (respondSuccess (step6Sync lg api orders ptm s4 (step5Sync lg api orders ptm s4 st))).flow
        = Flow.returned := by
  have h5 : (step5Sync lg api orders ptm s4 st).flow = Flow.running ∧
      (step5Sync lg api orders ptm s4 st).responses = [] := by
    unfold step5Sync
    apply forEach_running [] _ _ _ st h1 h2
    intro svcInstanceID st a b
    exact forEach_running [] _ (step5Process_running lg api hw [] ptm _) _ st a b
  have h6 : (step6Sync lg api orders ptm s4 (step5Sync lg api orders ptm s4 st)).flow
        = Flow.running ∧
      (step6Sync lg api orders ptm s4 (step5Sync lg api orders ptm s4 st)).responses = [] := by
    unfold step6Sync
    apply forEach_running [] _ _ _ _ h5.1 h5.2
    intro id st a b
    cases mapGet ptm id with
    | none => exact ⟨a, b⟩
    | some pt =>
      dsimp only
      exact forEach_running [] _ (step6Pair_running lg api hw [] s4 id pt) _ st a b
  unfold respondSuccess
  rw [h6.1]
  dsimp only
  rw [h6.2]
  exact ⟨rfl, rfl⟩

theorem forceSync_after_reads (sem : LoopVar) (lg : Logic) (api : SyncAPI) (orders : RangeOrders)
    (input : ForceSyncServiceInstanceWithTemplateInput) (bizID : Int)
    (templates : List ProcessTemplate) (relations : List ProcessInstanceRelation)
    (processInstances : List Process)
    (hbiz : input.Metadata = some bizID)
    (htpl : api.ListProcessTemplates [] bizID input.ServiceTemplateID = some templates)
    (hrel : api.ListProcessInstanceRelation
      [SyncCall.ListProcessTemplates bizID input.ServiceTemplateID] bizID input.ServiceInstances
      = some relations)
    (hproc : api.ListProcessInstanceWithIDs
      ([SyncCall.ListProcessTemplates bizID input.ServiceTemplateID] ++
        [SyncCall.ListProcessInstanceRelation bizID input.ServiceInstances])
      (relations.map ProcessInstanceRelation.ProcessID) = some processInstances) :
    ForceSyncServiceInstanceAccordingToServiceTemplate sem lg api orders (some input)
      = respondSuccess
          (step6Sync lg api orders (buildPointerMap sem ProcessTemplate.ID templates)
            (step4 (buildPointerMap sem Process.ProcessID processInstances) relations)
            (step5Sync lg api orders (buildPointerMap sem ProcessTemplate.ID templates)
              (step4 (buildPointerMap sem Process.ProcessID processInstances) relations)
              { calls := [SyncCall.ListProcessTemplates bizID input.ServiceTemplateID] ++
                  [SyncCall.ListProcessInstanceRelation bizID input.ServiceInstances] ++
                  [SyncCall.ListProcessInstanceWithIDs
                    (relations.map ProcessInstanceRelation.ProcessID)],
                responses := [], flow := Flow.running })) := by
  unfold ForceSyncServiceInstanceAccordingToServiceTemplate
  dsimp only
  rw [hbiz]
  dsimp only
  rw [htpl]
  dsimp only
  rw [hrel]
  dsimp only
  rw [hproc]

/-- Once the three reads have answered: no call of the run deletes or updates an
unresolved process id, step 4 over all relations is step 4 over the resolved ones, and
when every write succeeds the handler writes exactly the success response. -/
theorem unresolved_relation_not_targeted (sem : LoopVar) (lg : Logic) (api : SyncAPI)
    (orders : RangeOrders) (input : ForceSyncServiceInstanceWithTemplateInput) (bizID : Int)
    (templates : List ProcessTemplate) (relations : List ProcessInstanceRelation)
    (processInstances : List Process)
    (hbiz : input.Metadata = some bizID)
    (htpl : api.ListProcessTemplates [] bizID input.ServiceTemplateID = some templates)
    (hrel : api.ListProcessInstanceRelation
      [SyncCall.ListProcessTemplates bizID input.ServiceTemplateID] bizID input.ServiceInstances
      = some relations)
    (hproc : api.ListProcessInstanceWithIDs
      ([SyncCall.ListProcessTemplates bizID input.ServiceTemplateID] ++
        [SyncCall.ListProcessInstanceRelation bizID input.ServiceInstances])
      (relations.map ProcessInstanceRelation.ProcessID) = some processInstances) :
    (∀ r ∈ relations, r.ProcessID ∉ processInstances.map Process.ProcessID →
      ∀ c ∈ (ForceSyncServiceInstanceAccordingToServiceTemplate sem lg api orders
          (some input)).calls,
        c ≠ SyncCall.DeleteProcessInstance r.ProcessID
        ∧ c ≠ SyncCall.DeleteProcessInstanceRelation r.ProcessID
        ∧ ∀ proc, c ≠ SyncCall.UpdateProcessInstance r.ProcessID proc)
    ∧ step4 (buildPointerMap sem Process.ProcessID processInstances) relations
        = step4 (buildPointerMap sem Process.ProcessID processInstances)
            (relations.filter (fun r =>
              decide (r.ProcessID ∈ processInstances.map Process.ProcessID)))
    ∧ (api.WritesSucceed →
        (ForceSyncServiceInstanceAccordingToServiceTemplate sem lg api orders
          (some input)).responses = [SyncResponse.success]
        ∧ (ForceSyncServiceInstanceAccordingToServiceTemplate sem lg api orders
          (some input)).flow = Flow.returned) := by
  rw [forceSync_after_reads sem lg api orders input bizID templates relations processInstances
    hbiz htpl hrel hproc]
  refine ⟨?_, ?_, ?_⟩
  · intro r _ hunresolved c hc
    rw [respondSuccess_calls] at hc
    obtain ⟨n6, e6, t6⟩ := step6Sync_targets lg api orders
      (buildPointerMap sem ProcessTemplate.ID templates)
      (step4 (buildPointerMap sem Process.ProcessID processInstances) relations)
      (step5Sync lg api orders (buildPointerMap sem ProcessTemplate.ID templates)
        (step4 (buildPointerMap sem Process.ProcessID processInstances) relations)
        { calls := [SyncCall.ListProcessTemplates bizID input.ServiceTemplateID] ++
            [SyncCall.ListProcessInstanceRelation bizID input.ServiceInstances] ++
            [SyncCall.ListProcessInstanceWithIDs
              (relations.map ProcessInstanceRelation.ProcessID)],
          responses := [], flow := Flow.running })
    obtain ⟨n5, e5, t5⟩ := step5Sync_targets lg api orders
      (buildPointerMap sem ProcessTemplate.ID templates)
      (step4 (buildPointerMap sem Process.ProcessID processInstances) relations)
      processInstances
      (step4_processes _ processInstances
        (buildPointerMap_values sem Process.ProcessID processInstances) relations)
      { calls := [SyncCall.ListProcessTemplates bizID input.ServiceTemplateID] ++
          [SyncCall.ListProcessInstanceRelation bizID input.ServiceInstances] ++
          [SyncCall.ListProcessInstanceWithIDs
            (relations.map ProcessInstanceRelation.ProcessID)],
        responses := [], flow := Flow.running }
    rw [e6, e5] at hc
    have htarget : ∀ processID, writeTarget c = some processID →
        processID ∈ processInstances.map Process.ProcessID := by
      intro processID ht
      simp only [List.mem_append, List.mem_singleton] at hc
      rcases hc with (((h | h) | h) | h) | h
      · rw [h] at ht; cases ht
      · rw [h] at ht; cases ht
      · rw [h] at ht; cases ht
      · exact t5 c h processID ht
      · rw [t6 c h] at ht; cases ht
    refine ⟨?_, ?_, ?_⟩
    · intro heq
      exact hunresolved (htarget _ (by rw [heq]; rfl))
    · intro heq
      exact hunresolved (htarget _ (by rw [heq]; rfl))
    · intro proc heq
      exact hunresolved (htarget _ (by rw [heq]; rfl))
  · rw [step4_skips_unresolved]
    congr 1
    apply List.filter_congr
    intro r _
    rw [Bool.eq_iff_iff, mapGet_isSome_iff, buildPointerMap_keys]
    simp
  · intro hw
    exact steps_running lg api hw orders _ _ _ rfl rfl

theorem mapGet_mapSet {ν : Type} (m : List (Int × ν)) (k : Int) (v : ν) (k' : Int) :
    mapGet (mapSet m k v) k' = if k' = k then some v else mapGet m k' := by
  unfold mapGet
  induction m with
  | nil =>
    by_cases h : k' = k
    · subst h; simp [mapSet, List.lookup]
    · have hb : (k' == k) = false := by simpa using h
      simp [mapSet, List.lookup, hb, h]
  | cons e rest ih =>
    obtain ⟨k0, v0⟩ := e
    unfold mapSet
    by_cases h0 : k0 = k
    · subst h0
      by_cases h : k' = k0
      · subst h; simp [List.lookup]
      · have hb : (k' == k0) = false := by simpa using h
        simp [List.lookup, hb, h]
    · simp only [h0, if_false]
      by_cases h1 : k' = k0
      · subst h1
        simp [List.lookup, h0]
      · have hb : (k' == k0) = false := by simpa using h1
        simp only [List.lookup, hb]
        exact ih

theorem step4Relation_processMap (pim : List (Int × Process)) (st : Step4State)
    (r : ProcessInstanceRelation) (svcID : Int) :
    (mapGet (step4Relation pim st r).serviceInstanceWithProcessMap svcID).getD []
      = (mapGet st.serviceInstanceWithProcessMap svcID).getD [] ++
          ([r].filter (fun r => decide (r.ServiceInstanceID = svcID))).filterMap
            (fun r => mapGet pim r.ProcessID) := by
  unfold step4Relation
  cases hget : mapGet pim r.ProcessID with
  | none =>
    by_cases h : r.ServiceInstanceID = svcID <;> simp [List.filter, h, hget]
  | some p =>
    dsimp only
    rw [mapGet_mapSet]
    by_cases h : svcID = r.ServiceInstanceID
    · subst h
      simp [List.filter, hget]
    · have h' : ¬ r.ServiceInstanceID = svcID := fun e => h e.symm
      simp [List.filter, h, h']

theorem step4_processMap (pim : List (Int × Process)) (relations : List ProcessInstanceRelation)
    (svcID : Int) :
    (mapGet (step4 pim relations).serviceInstanceWithProcessMap svcID).getD []
      = (relations.filter (fun r => decide (r.ServiceInstanceID = svcID))).filterMap
          (fun r => mapGet pim r.ProcessID) := by
  unfold step4
  have : ∀ (rs : List ProcessInstanceRelation) (st : Step4State),
      (mapGet (rs.foldl (step4Relation pim) st).serviceInstanceWithProcessMap svcID).getD []
        = (mapGet st.serviceInstanceWithProcessMap svcID).getD [] ++
            (rs.filter (fun r => decide (r.ServiceInstanceID = svcID))).filterMap
              (fun r => mapGet pim r.ProcessID) := by
    intro rs
    induction rs with
    | nil => intro st; simp
    | cons r rest ih =>
      intro st
      rw [List.foldl_cons, ih, step4Relation_processMap, List.append_assoc,
        ← List.filterMap_append, ← List.filter_append]
      rfl
  rw [this relations _]
  simp [mapGet, List.lookup]

theorem forEach_includes {α : Type} (body : α → SyncState → SyncState) (c : SyncCall)
    (hrun : ∀ x st, st.flow = Flow.running → (body x st).flow = Flow.running)
    (hmono : ∀ x st, ∃ new, (body x st).calls = st.calls ++ new) :
    ∀ (xs : List α) (x : α), x ∈ xs →
      (∀ st, st.flow = Flow.running → c ∈ (body x st).calls) →
      ∀ st, st.flow = Flow.running → c ∈ (forEach body xs st).calls := by
  intro xs
  induction xs with
  | nil => intro x hx; cases hx
  | cons y rest ih =>
    intro x hx hc st hst
    unfold forEach
    rw [hst]
    dsimp only
    rcases List.mem_cons.mp hx with heq | hmem
    · subst heq
      obtain ⟨new, hnew, _⟩ := forEach_calls_all (fun _ => True) body rest
        (fun z _ st => by
          obtain ⟨n, hn⟩ := hmono z st
          exact ⟨n, hn, fun _ _ => trivial⟩) (body x st)
      rw [hnew]
      exact List.mem_append_left _ (hc st hst)
    · exact ih x hmem hc _ (hrun y st hst)

theorem step5Process_appends (lg : Logic) (api : SyncAPI)
    (ptm : List (Int × ProcessTemplate)) (pitm : List (Int × Int))
    (process : Process) (st : SyncState) :
    ∃ new, (step5Process lg api ptm pitm process st).calls = st.calls ++ new := by
  obtain ⟨new, h, _⟩ := step5Process_targets lg api ptm pitm process st
  exact ⟨new, h⟩

theorem step5Process_deletes (lg : Logic) (api : SyncAPI) (hw : api.WritesSucceed)
    (ptm : List (Int × ProcessTemplate)) (pitm : List (Int × Int)) (process : Process)
    (hgone : mapGet ptm ((mapGet pitm process.ProcessID).getD 0) = none) (st : SyncState) :
    SyncCall.DeleteProcessInstance process.ProcessID
        ∈ (step5Process lg api ptm pitm process st).calls
    ∧ SyncCall.DeleteProcessInstanceRelation process.ProcessID
        ∈ (step5Process lg api ptm pitm process st).calls := by
  unfold step5Process
  rw [hgone]
  dsimp only
  cases h1 : api.DeleteProcessInstance st.calls process.ProcessID with
  | none => exact absurd h1 (hw.1 _ _)
  | some u =>
    dsimp only
    cases h2 : api.DeleteProcessInstanceRelation
        (st.calls ++ [SyncCall.DeleteProcessInstance process.ProcessID]) process.ProcessID with
    | none => exact absurd h2 (hw.2.1 _ _)
    | some u2 => simp

theorem step5Process_updates (lg : Logic) (api : SyncAPI)
    (ptm : List (Int × ProcessTemplate)) (pitm : List (Int × Int)) (process : Process)
    (template : ProcessTemplate)
    (hlive : mapGet ptm ((mapGet pitm process.ProcessID).getD 0) = some template)
    (hchanged : (lg.CheckProcessTemplateAndInstanceIsDifferent template.Property process).2 = true)
    (st : SyncState) :
    SyncCall.UpdateProcessInstance process.ProcessID
        (lg.CheckProcessTemplateAndInstanceIsDifferent template.Property process).1
      ∈ (step5Process lg api ptm pitm process st).calls := by
  unfold step5Process
  rw [hlive]
  dsimp only
  rw [if_pos hchanged]
  cases api.UpdateProcessInstance st.calls process.ProcessID
      (lg.CheckProcessTemplateAndInstanceIsDifferent template.Property process).1 with
  | none => simp [SyncState.respondError]
  | some u => simp

theorem step5Sync_includes (lg : Logic) (api : SyncAPI) (hw : api.WritesSucceed)
    (orders : RangeOrders) (hv : orders.Valid) (ptm : List (Int × ProcessTemplate))
    (s4 : Step4State) (svcID : Int) (process : Process)
    (hmem : process ∈ (mapGet s4.serviceInstanceWithProcessMap svcID).getD [])
    (c : SyncCall)
    (hc : ∀ st, c ∈ (step5Process lg api ptm s4.processInstanceWithTemplateMap process st).calls)
    (st : SyncState) (hst : st.flow = Flow.running) :
    c ∈ (step5Sync lg api orders ptm s4 st).calls := by
  unfold step5Sync
  have hkey : svcID ∈ orders.step5 (mapKeys s4.serviceInstanceWithProcessMap) := by
    rw [(hv.1 _).mem_iff, ← mapGet_isSome_iff]
    cases hget : mapGet s4.serviceInstanceWithProcessMap svcID with
    | none => rw [hget] at hmem; cases hmem
    | some l => rfl
  refine forEach_includes _ c ?_ ?_ _ svcID hkey ?_ st hst
  · intro x st h
    exact (forEach_running st.responses _
      (step5Process_running lg api hw st.responses ptm _) _ st h rfl).1
  · intro x st
    obtain ⟨new, hnew, _⟩ := forEach_calls_all (fun _ => True)
      (step5Process lg api ptm s4.processInstanceWithTemplateMap)
      ((mapGet s4.serviceInstanceWithProcessMap x).getD [])
      (fun p _ st => by
        obtain ⟨n, hn⟩ := step5Process_appends lg api ptm _ p st
        exact ⟨n, hn, fun _ _ => trivial⟩) st
    exact ⟨new, hnew⟩
  · intro st h
    refine forEach_includes _ c ?_ ?_ _ process hmem (fun st _ => hc st) st h
    · intro p st h
      exact (step5Process_running lg api hw st.responses ptm _ p st h rfl).1
    · intro p st
      exact step5Process_appends lg api ptm _ p st

/-- C13: once the three reads have answered, a loaded relation whose ProcessID is not the
id of any process returned by `ListProcessInstanceWithIDs` is skipped and the others are
still processed.  No call of the run is a `DeleteProcessInstance`,
`DeleteProcessInstanceRelation` or `UpdateProcessInstance` for an unresolved process id;
the re-index of step 4 is the re-index of the resolved relations; when every write
succeeds the handler writes exactly the success response and returns; the process list
step 4 builds for a service instance holds, in load order, the process found for each of
its relations and nothing for an unresolved one; and when every write succeeds, for
every relation whose process is found the run issues the calls of step 5 for that
process: both deletes when its template is no longer listed, the update when the check
reports a change. -/
theorem C13_unresolved_relation_is_skipped (sem : LoopVar) (lg : Logic) (api : SyncAPI)
    (orders : RangeOrders) (input : ForceSyncServiceInstanceWithTemplateInput) (bizID : Int)
    (templates : List ProcessTemplate) (relations : List ProcessInstanceRelation)
    (processInstances : List Process)
    (hbiz : input.Metadata = some bizID)
    (htpl : api.ListProcessTemplates [] bizID input.ServiceTemplateID = some templates)
    (hrel : api.ListProcessInstanceRelation
      [SyncCall.ListProcessTemplates bizID input.ServiceTemplateID] bizID input.ServiceInstances
      = some relations)
    (hproc : api.ListProcessInstanceWithIDs
      ([SyncCall.ListProcessTemplates bizID input.ServiceTemplateID] ++
        [SyncCall.ListProcessInstanceRelation bizID input.ServiceInstances])
      (relations.map ProcessInstanceRelation.ProcessID) = some processInstances) :
    (∀ r ∈ relations, r.ProcessID ∉ processInstances.map Process.ProcessID →
      ∀ c ∈ (ForceSyncServiceInstanceAccordingToServiceTemplate sem lg api orders
          (some input)).calls,
        c ≠ SyncCall.DeleteProcessInstance r.ProcessID
        ∧ c ≠ SyncCall.DeleteProcessInstanceRelation r.ProcessID
        ∧ ∀ proc, c ≠ SyncCall.UpdateProcessInstance r.ProcessID proc)
    ∧ step4 (buildPointerMap sem Process.ProcessID processInstances) relations
        = step4 (buildPointerMap sem Process.ProcessID processInstances)
            (relations.filter (fun r =>
              decide (r.ProcessID ∈ processInstances.map Process.ProcessID)))
    ∧ (api.WritesSucceed →
        (ForceSyncServiceInstanceAccordingToServiceTemplate sem lg api orders
          (some input)).responses = [SyncResponse.success]
        ∧ (ForceSyncServiceInstanceAccordingToServiceTemplate sem lg api orders
          (some input)).flow = Flow.returned)
    ∧ (∀ svcID,
        (mapGet (step4 (buildPointerMap sem Process.ProcessID processInstances)
            relations).serviceInstanceWithProcessMap svcID).getD []
          = (relations.filter (fun r => decide (r.ServiceInstanceID = svcID))).filterMap
              (fun r => mapGet (buildPointerMap sem Process.ProcessID processInstances)
                r.ProcessID))
    ∧ (api.WritesSucceed → orders.Valid →
        ∀ r ∈ relations, ∀ process,
          mapGet (buildPointerMap sem Process.ProcessID processInstances) r.ProcessID
            = some process →
          (mapGet (buildPointerMap sem ProcessTemplate.ID templates)
              ((mapGet (step4 (buildPointerMap sem Process.ProcessID processInstances)
                relations).processInstanceWithTemplateMap process.ProcessID).getD 0) = none →
            SyncCall.DeleteProcessInstance process.ProcessID ∈
              (ForceSyncServiceInstanceAccordingToServiceTemplate sem lg api orders
                (some input)).calls
            ∧ SyncCall.DeleteProcessInstanceRelation process.ProcessID ∈
              (ForceSyncServiceInstanceAccordingToServiceTemplate sem lg api orders
                (some input)).calls)
          ∧ (∀ template,
              mapGet (buildPointerMap sem ProcessTemplate.ID templates)
                ((mapGet (step4 (buildPointerMap sem Process.ProcessID processInstances)
                  relations).processInstanceWithTemplateMap process.ProcessID).getD 0)
                = some template →
              (lg.CheckProcessTemplateAndInstanceIsDifferent template.Property process).2
                = true →
              SyncCall.UpdateProcessInstance process.ProcessID
                  (lg.CheckProcessTemplateAndInstanceIsDifferent template.Property process).1 ∈
                (ForceSyncServiceInstanceAccordingToServiceTemplate sem lg api orders
                  (some input)).calls)) := by
  obtain ⟨h1, h2, h3⟩ := unresolved_relation_not_targeted sem lg api orders input bizID
    templates relations processInstances hbiz htpl hrel hproc
  refine ⟨h1, h2, h3, step4_processMap _ relations, ?_⟩
  intro hw hv r hr process hfound
  rw [forceSync_after_reads sem lg api orders input bizID templates relations processInstances
    hbiz htpl hrel hproc]
  have hmem : process ∈ (mapGet (step4 (buildPointerMap sem Process.ProcessID processInstances)
      relations).serviceInstanceWithProcessMap r.ServiceInstanceID).getD [] := by
    rw [step4_processMap]
    exact List.mem_filterMap.mpr ⟨r, List.mem_filter.mpr ⟨hr, by simp⟩, hfound⟩
  have hlift : ∀ c, (∀ st, c ∈ (step5Process lg api
      (buildPointerMap sem ProcessTemplate.ID templates)
      (step4 (buildPointerMap sem Process.ProcessID processInstances)
        relations).processInstanceWithTemplateMap process st).calls) →
      c ∈ (respondSuccess
        (step6Sync lg api orders (buildPointerMap sem ProcessTemplate.ID templates)
          (step4 (buildPointerMap sem Process.ProcessID processInstances) relations)
          (step5Sync lg api orders (buildPointerMap sem ProcessTemplate.ID templates)
            (step4 (buildPointerMap sem Process.ProcessID processInstances) relations)
            { calls := [SyncCall.ListProcessTemplates bizID input.ServiceTemplateID] ++
                [SyncCall.ListProcessInstanceRelation bizID input.ServiceInstances] ++
                [SyncCall.ListProcessInstanceWithIDs
                  (relations.map ProcessInstanceRelation.ProcessID)],
              responses := [], flow := Flow.running }))).calls := by
    intro c hc
    rw [respondSuccess_calls]
    obtain ⟨n6, e6, _⟩ := step6Sync_targets lg api orders
      (buildPointerMap sem ProcessTemplate.ID templates)
      (step4 (buildPointerMap sem Process.ProcessID processInstances) relations)
      (step5Sync lg api orders (buildPointerMap sem ProcessTemplate.ID templates)
        (step4 (buildPointerMap sem Process.ProcessID processInstances) relations)
        { calls := [SyncCall.ListProcessTemplates bizID input.ServiceTemplateID] ++
            [SyncCall.ListProcessInstanceRelation bizID input.ServiceInstances] ++
            [SyncCall.ListProcessInstanceWithIDs
              (relations.map ProcessInstanceRelation.ProcessID)],
          responses := [], flow := Flow.running })
    rw [e6]
    exact List.mem_append_left _
      (step5Sync_includes lg api hw orders hv _ _ r.ServiceInstanceID process hmem c hc _ rfl)
  refine ⟨?_, ?_⟩
  · intro hgone
    exact ⟨hlift _ (fun st => (step5Process_deletes lg api hw _ _ process hgone st).1),
      hlift _ (fun st => (step5Process_deletes lg api hw _ _ process hgone st).2)⟩
  · intro template hlive hchanged
    exact hlift _ (fun st => step5Process_updates lg api _ _ process template hlive hchanged st)

/-- Witness for C13: S has a relation row for process 99, which is not stored, followed by
the row of the stored process 10 whose value differs from its template: nothing is
issued for 99, process 10 is updated, and the run answers with success. -/
theorem C13_unresolved_relation_is_skipped_witness :
    (∀ c ∈ (ForceSyncServiceInstanceAccordingToServiceTemplate LoopVar.shared stdLogic
          driftedDanglingStore.syncAPI insertionOrder (some syncInput)).calls,
        c ≠ SyncCall.DeleteProcessInstance 99
        ∧ c ≠ SyncCall.DeleteProcessInstanceRelation 99
        ∧ ∀ proc, c ≠ SyncCall.UpdateProcessInstance 99 proc)
    ∧ (ForceSyncServiceInstanceAccordingToServiceTemplate LoopVar.shared stdLogic
          driftedDanglingStore.syncAPI insertionOrder (some syncInput)).responses
        = [SyncResponse.success]
    ∧ SyncCall.UpdateProcessInstance 10 { ProcessID := 10, Attrs := [("a", 1)] } ∈
        (ForceSyncServiceInstanceAccordingToServiceTemplate LoopVar.shared stdLogic
          driftedDanglingStore.syncAPI insertionOrder (some syncInput)).calls :=
  ⟨(C13_unresolved_relation_is_skipped LoopVar.shared stdLogic driftedDanglingStore.syncAPI
      insertionOrder syncInput 1 [tplP1]
      [{ ProcessID := 99, ServiceInstanceID := 100, ProcessTemplateID := 1, HostID := 7 },
       { ProcessID := 10, ServiceInstanceID := 100, ProcessTemplateID := 1, HostID := 7 }]
      [{ ProcessID := 10, Attrs := [("a", 5)] }] rfl rfl rfl rfl).1
      { ProcessID := 99, ServiceInstanceID := 100, ProcessTemplateID := 1, HostID := 7 }
      (by simp) (by decide),
   ((C13_unresolved_relation_is_skipped LoopVar.shared stdLogic driftedDanglingStore.syncAPI
      insertionOrder syncInput 1 [tplP1]
      [{ ProcessID := 99, ServiceInstanceID := 100, ProcessTemplateID := 1, HostID := 7 },
       { ProcessID := 10, ServiceInstanceID := 100, ProcessTemplateID := 1, HostID := 7 }]
      [{ ProcessID := 10, Attrs := [("a", 5)] }] rfl rfl rfl rfl).2.2.1
      ⟨fun _ _ => Option.some_ne_none (), fun _ _ => Option.some_ne_none (),
       fun _ _ _ => Option.some_ne_none (), fun _ _ => Option.some_ne_none _,
       fun _ _ => Option.some_ne_none ()⟩).1,
   (((C13_unresolved_relation_is_skipped LoopVar.shared stdLogic driftedDanglingStore.syncAPI
      insertionOrder syncInput 1 [tplP1]
      [{ ProcessID := 99, ServiceInstanceID := 100, ProcessTemplateID := 1, HostID := 7 },
       { ProcessID := 10, ServiceInstanceID := 100, ProcessTemplateID := 1, HostID := 7 }]
      [{ ProcessID := 10, Attrs := [("a", 5)] }] rfl rfl rfl rfl).2.2.2.2
      ⟨fun _ _ => Option.some_ne_none (), fun _ _ => Option.some_ne_none (),
       fun _ _ _ => Option.some_ne_none (), fun _ _ => Option.some_ne_none _,
       fun _ _ => Option.some_ne_none ()⟩ insertionOrder_valid
      { ProcessID := 10, ServiceInstanceID := 100, ProcessTemplateID := 1, HostID := 7 }
      (by simp) { ProcessID := 10, Attrs := [("a", 5)] } rfl).2 tplP1 rfl rfl)⟩

/-! ## The mainline topology search -/

/-- C14 (code bug): for every business id and every underlying error, when all earlier
stages succeed and `ConstructInstanceTopoTree` fails, the function returns a nil tree
and the text `get other mainline instances by business:<id> failed, <error>`, which is
exactly what it returns when `LoadMainlineInstances` fails with the same error. -/
theorem C14_tree_construction_error_names_another_stage (bkBizID : Int) (withDetail : Bool) (err : String) :
    (SearchMainlineInstanceTopo (stageOps (some Stage.ConstructInstanceTopoTree) err) bkBizID
        withDetail).err
      = some ("get other mainline instances by business:" ++ toString bkBizID ++ " failed, " ++ err)
    ∧ (SearchMainlineInstanceTopo (stageOps (some Stage.LoadMainlineInstances) err) bkBizID
        withDetail).err
      = some ("get other mainline instances by business:" ++ toString bkBizID ++ " failed, " ++ err)
    ∧ (SearchMainlineInstanceTopo (stageOps (some Stage.ConstructInstanceTopoTree) err) bkBizID
        withDetail).root = none
    ∧ (SearchMainlineInstanceTopo (stageOps (some Stage.LoadMainlineInstances) err) bkBizID
        withDetail).root = none := by
  exact ⟨rfl, rfl, rfl, rfl⟩

/-- C15: when every stage up to and including `ConstructInstanceTopoTree` succeeds and
leaves `im`, the function returns the root `GetRoot` yields for `im` and a nil error;
and it returns the same pair when `json.Marshal` of the root is replaced by any other
behaviour, failing or not. -/
theorem C15_root_returned_whatever_the_dump {Model Mainline InstanceMap Root : Type}
    (ops : MainlineOps Model Mainline InstanceMap Root) (bkBizID : Int) (withDetail : Bool)
    (im : Mainline) (marshalRoot : Root → Except String String)
    (hstages : (mainlineStages ops bkBizID withDetail).2 = Except.ok im) :
    (SearchMainlineInstanceTopo ops bkBizID withDetail).root = some (ops.GetRoot im)
    ∧ (SearchMainlineInstanceTopo ops bkBizID withDetail).err = none
    ∧ (SearchMainlineInstanceTopo { ops with marshalRoot := marshalRoot } bkBizID withDetail).root
        = some (ops.GetRoot im)
    ∧ (SearchMainlineInstanceTopo { ops with marshalRoot := marshalRoot } bkBizID withDetail).err
        = none := by
  have hsame : mainlineStages { ops with marshalRoot := marshalRoot } bkBizID withDetail
      = mainlineStages ops bkBizID withDetail := rfl
  unfold SearchMainlineInstanceTopo
  rw [hsame]
  cases hst : mainlineStages ops bkBizID withDetail with
  | mk logs res =>
    rw [hst] at hstages
    dsimp only at hstages
    subst hstages
    dsimp only
    refine ⟨?_, ?_, ?_, ?_⟩
    · cases ops.marshalRoot (ops.GetRoot im) <;> rfl
    · cases ops.marshalRoot (ops.GetRoot im) <;> rfl
    · cases marshalRoot (ops.GetRoot im) <;> rfl
    · cases marshalRoot (ops.GetRoot im) <;> rfl

/-- Witness for C15: every stage succeeds; the pair returned is the root and a nil error,
also when the serialization of the root fails. -/
theorem C15_root_returned_whatever_the_dump_witness :
    (SearchMainlineInstanceTopo (stageOps none "boom") 1 true).root = some 9
    ∧ (SearchMainlineInstanceTopo (stageOps none "boom") 1 true).err = none
    ∧ (SearchMainlineInstanceTopo
        { stageOps none "boom" with marshalRoot := fun _ => Except.error "boom" } 1 true).root
        = some 9
    ∧ (SearchMainlineInstanceTopo
        { stageOps none "boom" with marshalRoot := fun _ => Except.error "boom" } 1 true).err
        = none :=
  C15_root_returned_whatever_the_dump (stageOps none "boom") 1 true 9
    (fun _ => Except.error "boom") rfl

end BkCmdb
